import Mathlib

/-!
Verification of the ReSTIR DI resampling engine of the HIPRT-Path-Tracer
repository, as a shallow embedding over exact rational arithmetic.

Machine `float`s are modelled as `ℚ` (idealized, exact arithmetic); `int`s
as `ℤ`; `unsigned int` counters as `ℕ`.  External collaborators (BSDF
evaluation, environment map, shadow-ray tracing, G-buffer lookups) and the
floating-point library backends (`sqrt`, `cos`/`sin`, the low-discrepancy
samplers) are fields of the `HIPRTRenderData` structure, mirroring how the
device code reaches them through `render_data` / global device functions.
-/

namespace RestirDI

/-- 3-component float vector (`float3`), components as exact rationals. -/
structure Float3 where
  x : ℚ
  y : ℚ
  z : ℚ
deriving DecidableEq, Repr

namespace Float3

def dot (a b : Float3) : ℚ := a.x * b.x + a.y * b.y + a.z * b.z

def sub (a b : Float3) : Float3 := ⟨a.x - b.x, a.y - b.y, a.z - b.z⟩

def neg (a : Float3) : Float3 := ⟨-a.x, -a.y, -a.z⟩

/-- Componentwise division by a scalar (`v / s`, `v /= s`). -/
def divs (a : Float3) (s : ℚ) : Float3 := ⟨a.x / s, a.y / s, a.z / s⟩

end Float3

/-- 2-component integer vector (`int2`). -/
structure Int2 where
  x : ℤ
  y : ℤ
deriving DecidableEq, Repr

/-- 2-component float vector (`float2`). -/
structure Float2 where
  x : ℚ
  y : ℚ
deriving DecidableEq, Repr

/-- RGB color (`ColorRGB32F`), components as exact rationals.
Modelled from the spec: `HostDeviceCommon/Color.h` is not under `src/`;
the spec (§4.2) only uses colors through componentwise products and the
`luminance()` scalar projection. -/
structure ColorRGB32F where
  r : ℚ
  g : ℚ
  b : ℚ
deriving DecidableEq, Repr

namespace ColorRGB32F

/-- Componentwise color product (`ColorRGB32F * ColorRGB32F`). -/
def mul (a b : ColorRGB32F) : ColorRGB32F := ⟨a.r * b.r, a.g * b.g, a.b * b.b⟩

/-- Color scaled by a scalar (`ColorRGB32F * float`). -/
def smul (a : ColorRGB32F) (s : ℚ) : ColorRGB32F := ⟨a.r * s, a.g * s, a.b * s⟩

/-- Modelled from the spec: `luminance()` of `Color.h` (absent from `src/`),
the standard Rec. 709 luminance weighting of the RGB channels. -/
def luminance (a : ColorRGB32F) : ℚ :=
  (2126 / 10000) * a.r + (7152 / 10000) * a.g + (722 / 10000) * a.b

/-- All channels non-negative. -/
def Nonneg (a : ColorRGB32F) : Prop := 0 ≤ a.r ∧ 0 ≤ a.g ∧ 0 ≤ a.b

instance (a : ColorRGB32F) : Decidable a.Nonneg := by
  unfold ColorRGB32F.Nonneg; infer_instance

end ColorRGB32F

/-- `hippt::max(0.0f, x)` etc. -/
def qmax (a b : ℚ) : ℚ := if a < b then b else a

/-- `hippt::abs`. -/
def qabs (a : ℚ) : ℚ := if a < 0 then -a else a

/-- Modelled from the spec: the per-worker counter-seeded pseudo-random
generator (`Xorshift32Generator`, absent from `src/`; spec §5: a private
value-type PRNG producing an independent stream).  Modelled as a stream of
rationals together with a cursor; `operator()` reads the stream at the
cursor and advances it. -/
structure Xorshift32Generator where
  seq : ℕ → ℚ
  idx : ℕ

namespace Xorshift32Generator

/-- One draw (`rng()`): the value at the cursor, and the advanced generator. -/
def next (g : Xorshift32Generator) : ℚ × Xorshift32Generator :=
  (g.seq g.idx, ⟨g.seq, g.idx + 1⟩)

end Xorshift32Generator

/-- Sample flag bit `RESTIR_DI_FLAGS_ENVMAP_SAMPLE` (the only flag the
embedded code inspects); `flags & RESTIR_DI_FLAGS_ENVMAP_SAMPLE` is
modelled as this Bool. -/
structure ReSTIRDISampleFlags where
  envmap_sample : Bool
deriving DecidableEq, Repr

/-- `ReSTIRDISample` (spec §3): one candidate light sample. -/
structure ReSTIRDISample where
  point_on_light_source : Float3
  emissive_triangle_index : ℤ
  flags : ReSTIRDISampleFlags
  target_function : ℚ
deriving DecidableEq, Repr

/-- `ReSTIRDIReservoir` (spec §3): streaming-resampling state.
`M` is an unsigned confidence counter, modelled as `ℕ`. -/
structure ReSTIRDIReservoir where
  sample : ReSTIRDISample
  weight_sum : ℚ
  M : ℕ
  UCW : ℚ
deriving DecidableEq, Repr

namespace ReSTIRDIReservoir

/-- Modelled from the spec: the `ReSTIRDIReservoir` default constructor
(the reservoir struct is not under `src/`); a reservoir is created fresh
with no sample, zero weight and zero confidence (spec §3). -/
def init : ReSTIRDIReservoir :=
  { sample := { point_on_light_source := ⟨0, 0, 0⟩
                emissive_triangle_index := -1
                flags := ⟨false⟩
                target_function := 0 }
    weight_sum := 0
    M := 0
    UCW := 0 }

/-- Modelled from the spec: `ReSTIRDIReservoir::combine_with` (spec §4.1;
the reservoir struct is not under `src/`).  `u` is the one fresh uniform
random draw of the invocation.  Returns the updated reservoir and whether
the candidate's sample was selected.
If `jacobian < 0` (shift rejected) or `candidate.UCW <= 0`: the
contribution weight is 0 but `M` still accumulates, and no random number
is drawn; otherwise one fresh uniform `u` is drawn, the resampling weight
is `w = target_function * candidate.UCW * jacobian * mis_weight`, and the
candidate replaces the stored sample when `u * weight_sum < w` (the
replaced sample caches `target_function`, the score at the combining
domain, as spec §4.1 `end_normalized` requires).  Returns the updated
reservoir, whether the candidate was selected, and the generator. -/
def combine_with (self candidate : ReSTIRDIReservoir) (mis_weight : ℚ)
    (target_function : ℚ) (jacobian : ℚ) (rng : Xorshift32Generator) :
    (ReSTIRDIReservoir × Bool) × Xorshift32Generator :=
  if jacobian < 0 ∨ candidate.UCW ≤ 0 then
    (({ self with M := self.M + candidate.M }, false), rng)
  else
    let w := target_function * candidate.UCW * jacobian * mis_weight
    let ws := self.weight_sum + w
    let draw := rng.next
    let replace := draw.1 * ws < w
    (({ self with
        weight_sum := ws
        M := self.M + candidate.M
        sample := if replace then
            { candidate.sample with target_function := target_function }
          else self.sample },
      replace), draw.2)

/-- Modelled from the spec: `ReSTIRDIReservoir::end_normalized` (spec §4.1;
not under `src/`): `denom <= 0` forces `UCW = 0`, a zero cached target
function likewise (divide-by-zero guard), otherwise
`UCW = weight_sum * nume / (denom * sample.target_function)`. -/
def end_normalized (r : ReSTIRDIReservoir) (nume denom : ℚ) : ReSTIRDIReservoir :=
  if denom ≤ 0 then { r with UCW := 0 }
  else if r.sample.target_function = 0 then { r with UCW := 0 }
  else { r with UCW := r.weight_sum * nume / (denom * r.sample.target_function) }

/-- Modelled from the spec: `ReSTIRDIReservoir::sanity_check` (spec §4.1;
not under `src/`) zeroes a reservoir whose `UCW` or `weight_sum` is
non-finite.  In the exact rational model every value is finite, so the
guard never fires and the operation is the identity. -/
def sanity_check (r : ReSTIRDIReservoir) (_pixel_coords : Int2) : ReSTIRDIReservoir := r

end ReSTIRDIReservoir

/-- Opaque volumetric-stack state, passed through to BSDF evaluation and
never interpreted by the reservoir code (spec §3). -/
abbrev RayVolumeState : Type := ℤ

/-- Material snapshot: the fields the embedded code reads
(`roughness` from the G-buffer materials, `emission` from the scene
materials buffer). -/
structure Material where
  roughness : ℚ
  emission : ColorRGB32F

/-- `ReSTIRDISurface` (spec §3): per-pixel shading context. -/
structure ReSTIRDISurface where
  shading_point : Float3
  shading_normal : Float3
  view_direction : Float3
  material : Material
  ray_volume_state : RayVolumeState

/-- The six `RESTIR_DI_BIAS_CORRECTION_*` compile-time constants of
`HostDeviceCommon/KernelOptions.h` (values 0..5). -/
inductive BiasCorrectionMode where
  | oneOverM
  | oneOverZ
  | misLike
  | misLikeConfidence
  | misGBH
  | misGBHConfidence
deriving DecidableEq, Repr

/-- The compile-time `#define` kernel options the embedded code branches
on, represented as a configuration record (spec §9: macro-selected
variants become a configuration chosen once). -/
structure KernelCompileOptions where
  targetFunctionVisibility : Bool
  spatialReuseBiasUseVisibility : Bool
  biasCorrectionUseVisibility : Bool
  biasCorrectionWeights : BiasCorrectionMode
  doVisibilityReuse : Bool

/-- Spatial-pass block of `ReSTIRDISettings`. -/
structure SpatialPassSettings where
  spatial_reuse_radius : ℤ
  spatial_reuse_neighbor_count : ℕ
  debug_neighbor_location : Bool
  allow_converged_neighbors_reuse : Bool
  converged_neighbor_reuse_probability : ℚ
  number_of_passes : ℕ
  spatial_pass_index : ℕ
  input_reservoirs : ℤ → ReSTIRDIReservoir

/-- Temporal-pass block of `ReSTIRDISettings`. -/
structure TemporalPassSettings where
  max_neighbor_search_count : ℕ
  neighbor_search_radius : ℚ

/-- `ReSTIRDISettings`: the configuration fields the embedded code reads. -/
structure ReSTIRDISettings where
  use_plane_distance_heuristic : Bool
  plane_distance_threshold : ℚ
  use_normal_similarity_heuristic : Bool
  normal_similarity_angle_precomp : ℚ
  use_roughness_similarity_heuristic : Bool
  roughness_similarity_threshold : ℚ
  m_cap : ℕ
  spatial_pass : SpatialPassSettings
  temporal_pass : TemporalPassSettings

/-- `RenderSettings`: the fields the embedded code reads. -/
structure RenderSettings where
  restir_di_settings : ReSTIRDISettings
  enable_adaptive_sampling : Bool
  sample_number : ℕ
  adaptive_sampling_min_samples : ℕ
  freeze_random : Bool

/-- `HIPRTRenderData`: scene buffers, settings, and the external
collaborators of spec §6 together with the floating-point library
backends, all as function-valued fields.  G-buffer and reservoir buffers
are total functions over linear pixel indices. -/
structure HIPRTRenderData where
  render_settings : RenderSettings
  kopts : KernelCompileOptions
  random_seed : ℕ
  /-- `render_data.buffers.material_indices` -/
  material_indices : ℤ → ℤ
  /-- `render_data.buffers.materials_buffer` -/
  materials_buffer : ℤ → Material
  /-- `render_data.g_buffer.first_hits` -/
  g_buffer_first_hits : ℤ → Float3
  /-- `render_data.g_buffer.shading_normals` -/
  g_buffer_shading_normals : ℤ → Float3
  /-- `render_data.g_buffer.materials` -/
  g_buffer_materials : ℤ → Material
  /-- `render_data.aux_buffers.pixel_converged_sample_count` -/
  pixel_converged_sample_count : ℤ → ℤ
  /-- `render_data.prev_camera.view_projection` applied to a point
  (`matrix_X_point`), an external collaborator (spec §6). -/
  prev_view_projection : Float3 → Float3
  /-- `bsdf_dispatcher_eval` (external collaborator, spec §6); the output
  `pdf` is not read by the embedded code and is dropped. -/
  bsdf_eval : Material → RayVolumeState → Float3 → Float3 → Float3 → ColorRGB32F
  /-- `envmap_eval` (external collaborator, spec §6); the output pdf is
  not read and is dropped. -/
  envmap_eval : Float3 → ColorRGB32F
  /-- `evaluate_shadow_ray origin direction max_dist` (external
  collaborator, spec §6): `true` means occluded. -/
  evaluate_shadow_ray : Float3 → Float3 → ℚ → Bool
  /-- `get_pixel_surface` (G-buffer lookup, external collaborator). -/
  get_pixel_surface : ℤ → ReSTIRDISurface
  /-- `get_triangle_normal_non_normalized` (external collaborator). -/
  get_triangle_normal_non_normalized : ℤ → Float3
  /-- Float `sqrt` backend: `hippt::length v = sqrtQ (dot v v)`. -/
  sqrtQ : ℚ → ℚ
  /-- Float `cos`/`sin` backend for the per-pixel random rotation: maps
  the uniform draw `u` to `(cos (2 pi u), sin (2 pi u))`. -/
  cos_sin_of : ℚ → ℚ × ℚ
  /-- Modelled from the spec: `sample_hammersley_2D` of `Sampling.h`
  (absent from `src/`; spec §4.4: a low-discrepancy 2D point). -/
  sample_hammersley_2D : ℕ → ℕ → Float2
  /-- Modelled from the spec: `sample_in_disk_uv` of `Sampling.h`
  (absent from `src/`; spec §4.4: maps a uv point onto a disk of the
  given radius). -/
  sample_in_disk_uv : ℚ → Float2 → Float2
  /-- `wang_hash` (absent from `src/`), the seed hash of spec §5. -/
  wang_hash : ℕ → ℕ
  /-- Modelled from the spec: `Xorshift32Generator(seed)` construction,
  yielding the seed's independent random stream (spec §5). -/
  rng_from_seed : ℕ → Xorshift32Generator

/-- `hippt::length`. -/
def hipptLength (rd : HIPRTRenderData) (v : Float3) : ℚ := rd.sqrtQ (v.dot v)

/-- `hippt::normalize` (`v / length v`). -/
def hipptNormalize (rd : HIPRTRenderData) (v : Float3) : Float3 :=
  v.divs (hipptLength rd v)

/-- The sample direction the target-function evaluators compute: the
sample's own direction for an environment-map sample, otherwise the
normalized direction from the surface towards the point on the light. -/
def targetFnSampleDirection (rd : HIPRTRenderData) (sample : ReSTIRDISample)
    (surface : ReSTIRDISurface) : Float3 :=
  if sample.flags.envmap_sample then sample.point_on_light_source
  else hipptNormalize rd (sample.point_on_light_source.sub surface.shading_point)

/-- The distance to the light the visibility-aware evaluator computes
(`1.0e35f` for environment-map samples). -/
def targetFnDistanceToLight (rd : HIPRTRenderData) (sample : ReSTIRDISample)
    (surface : ReSTIRDISurface) : ℚ :=
  if sample.flags.envmap_sample then 10 ^ 35
  else hipptLength rd (sample.point_on_light_source.sub surface.shading_point)

/-- The emission color the target-function evaluators read: environment
map evaluation for an environment-map sample, the emissive triangle's
material emission otherwise. -/
def targetFnEmission (rd : HIPRTRenderData) (sample : ReSTIRDISample)
    (sample_direction : Float3) : ColorRGB32F :=
  if sample.flags.envmap_sample then rd.envmap_eval sample_direction
  else (rd.materials_buffer (rd.material_indices sample.emissive_triangle_index)).emission

/-- `ReSTIR_DI_evaluate_target_function<KERNEL_OPTION_FALSE>`
(`Device/includes/ReSTIR/DI/Utils.h` lines 29-71): score of a light
sample at a surface, without occlusion. -/
def ReSTIR_DI_evaluate_target_function_novis (rd : HIPRTRenderData)
    (sample : ReSTIRDISample) (surface : ReSTIRDISurface) : ℚ :=
  if sample.emissive_triangle_index = -1 ∧ ¬ sample.flags.envmap_sample then 0
  else
    let sample_direction := targetFnSampleDirection rd sample surface
    let cosine_term := qmax 0 (surface.shading_normal.dot sample_direction)
    if cosine_term = 0 then 0
    else
      let bsdf_color := rd.bsdf_eval surface.material surface.ray_volume_state
        surface.view_direction surface.shading_normal sample_direction
      let sample_emission := targetFnEmission rd sample sample_direction
      let target_function := ((bsdf_color.mul sample_emission).smul cosine_term).luminance
      if target_function = 0 then 0 else target_function

/-- `ReSTIR_DI_evaluate_target_function<KERNEL_OPTION_TRUE>`
(`Device/includes/ReSTIR/DI/Utils.h` lines 74-130): score of a light
sample at a surface with occlusion.  The second component instruments the
embedding, recording whether `evaluate_shadow_ray` was invoked. -/
def ReSTIR_DI_evaluate_target_function_vis (rd : HIPRTRenderData)
    (sample : ReSTIRDISample) (surface : ReSTIRDISurface) : ℚ × Bool :=
  if sample.emissive_triangle_index = -1 ∧ ¬ sample.flags.envmap_sample then (0, false)
  else
    let sample_direction := targetFnSampleDirection rd sample surface
    let distance_to_light := targetFnDistanceToLight rd sample surface
    let cosine_term := qmax 0 (surface.shading_normal.dot sample_direction)
    if cosine_term = 0 then (0, false)
    else
      let bsdf_color := rd.bsdf_eval surface.material surface.ray_volume_state
        surface.view_direction surface.shading_normal sample_direction
      let sample_emission := targetFnEmission rd sample sample_direction
      let target_function := ((bsdf_color.mul sample_emission).smul cosine_term).luminance
      if target_function = 0 then (0, false)
      else
        let occluded := rd.evaluate_shadow_ray surface.shading_point sample_direction
          distance_to_light
        (target_function * (if occluded then 0 else 1), true)

/-- `ReSTIR_DI_evaluate_target_function`, dispatching on the compile-time
visibility flag as the C++ template specializations do. -/
def ReSTIR_DI_evaluate_target_function (withVisibility : Bool)
    (rd : HIPRTRenderData) (sample : ReSTIRDISample)
    (surface : ReSTIRDISurface) : ℚ :=
  if withVisibility then (ReSTIR_DI_evaluate_target_function_vis rd sample surface).1
  else ReSTIR_DI_evaluate_target_function_novis rd sample surface

/-- `ReSTIR_DI_visibility_reuse` (`Device/includes/ReSTIR/DI/Utils.h`
lines 132-158): when `UCW > 0`, trace one shadow ray toward the stored
sample and set `UCW` to the `-1` sentinel on occlusion.  The second
component instruments the embedding with the number of shadow rays
traced. -/
def ReSTIR_DI_visibility_reuse (rd : HIPRTRenderData)
    (reservoir : ReSTIRDIReservoir) (shading_point : Float3) :
    ReSTIRDIReservoir × ℕ :=
  if reservoir.UCW ≤ 0 then (reservoir, 0)
  else
    let v := reservoir.sample.point_on_light_source.sub shading_point
    let sample_direction := if reservoir.sample.flags.envmap_sample then
        reservoir.sample.point_on_light_source
      else v.divs (hipptLength rd v)
    let distance_to_light := if reservoir.sample.flags.envmap_sample then (10 : ℚ) ^ 35
      else hipptLength rd v
    let occluded := rd.evaluate_shadow_ray shading_point sample_direction distance_to_light
    if occluded then ({ reservoir with UCW := -1 }, 1) else (reservoir, 1)

/-- `spatial_visibility_reuse` (`Device/kernels/ReSTIR/ReSTIR_DI_SpatialReuse.h`
lines 210-226): when `UCW != 0`, trace one shadow ray toward the stored
sample and set `UCW` to `0` on occlusion (no environment-map special
case).  The second component counts the shadow rays traced. -/
def spatial_visibility_reuse (rd : HIPRTRenderData)
    (reservoir : ReSTIRDIReservoir) (shading_point : Float3) :
    ReSTIRDIReservoir × ℕ :=
  if reservoir.UCW = 0 then (reservoir, 0)
  else
    let v := reservoir.sample.point_on_light_source.sub shading_point
    let distance_to_light := hipptLength rd v
    let sample_direction := v.divs distance_to_light
    let occluded := rd.evaluate_shadow_ray shading_point sample_direction distance_to_light
    if occluded then ({ reservoir with UCW := 0 }, 1) else (reservoir, 1)

/-- The four geometric quantities of the reconnection-shift jacobian
(`Device/includes/ReSTIR/DI/Utils.h` lines 162-172):
`(cos_at_center, cos_at_neighbor, dist_at_center, dist_at_neighbor)`. -/
def jacobianParts (rd : HIPRTRenderData) (neighbor_reservoir : ReSTIRDIReservoir)
    (center_pixel_shading_point neighbor_shading_point : Float3) : ℚ × ℚ × ℚ × ℚ :=
  let to_light_at_center :=
    neighbor_reservoir.sample.point_on_light_source.sub center_pixel_shading_point
  let to_light_at_neighbor :=
    neighbor_reservoir.sample.point_on_light_source.sub neighbor_shading_point
  let distance_to_light_at_center := hipptLength rd to_light_at_center
  let distance_to_light_at_neighbor := hipptLength rd to_light_at_neighbor
  let dir_at_center := to_light_at_center.divs distance_to_light_at_center
  let dir_at_neighbor := to_light_at_neighbor.divs distance_to_light_at_neighbor
  let light_source_normal := hipptNormalize rd
    (rd.get_triangle_normal_non_normalized neighbor_reservoir.sample.emissive_triangle_index)
  let cosine_light_source_at_center := qabs (dir_at_center.neg.dot light_source_normal)
  let cosine_light_source_at_neighbor := qabs (dir_at_neighbor.neg.dot light_source_normal)
  (cosine_light_source_at_center, cosine_light_source_at_neighbor,
    distance_to_light_at_center, distance_to_light_at_neighbor)

/-- `get_jacobian_determinant_reconnection_shift`
(`Device/includes/ReSTIR/DI/Utils.h` lines 160-185).  In IEEE arithmetic
the non-finite outcomes are exactly the zero-divisor cases
(`cos_at_neighbor = 0` or `dist_at_center = 0`) and every non-finite
value fails the `> 20 || < 1/20 || isNaN` test; in the exact rational
model a zero divisor yields `0`, which fails `< 1/20` just the same, so
both models return `-1` on every division-degenerate input. -/
def get_jacobian_determinant_reconnection_shift (rd : HIPRTRenderData)
    (neighbor_reservoir : ReSTIRDIReservoir)
    (center_pixel_shading_point neighbor_shading_point : Float3) : ℚ :=
  let parts := jacobianParts rd neighbor_reservoir center_pixel_shading_point
    neighbor_shading_point
  let cosine_ratio := parts.1 / parts.2.1
  let distance_squared_ratio :=
    (parts.2.2.2 * parts.2.2.2) / (parts.2.2.1 * parts.2.2.1)
  let jacobian := cosine_ratio * distance_squared_ratio
  let jacobian_clamp : ℚ := 20
  if jacobian > jacobian_clamp ∨ jacobian < 1 / jacobian_clamp then -1
  else jacobian

/-- `get_jacobian_determinant_reconnection_shift` overload taking the
neighbor pixel index (`Device/includes/ReSTIR/DI/Utils.h` lines 187-190). -/
def get_jacobian_determinant_reconnection_shift_at_pixel (rd : HIPRTRenderData)
    (neighbor_reservoir : ReSTIRDIReservoir)
    (center_pixel_shading_point : Float3) (neighbor_pixel_index : ℤ) : ℚ :=
  get_jacobian_determinant_reconnection_shift rd neighbor_reservoir
    center_pixel_shading_point (rd.g_buffer_first_hits neighbor_pixel_index)

/-- `plane_distance_heuristic` (`Device/includes/ReSTIR/DI/Utils.h`
lines 195-204). -/
def plane_distance_heuristic (restir_di_settings : ReSTIRDISettings)
    (temporal_world_space_point current_point current_surface_normal : Float3)
    (plane_distance_threshold : ℚ) : Bool :=
  if ¬ restir_di_settings.use_plane_distance_heuristic then true
  else
    let direction_between_points := temporal_world_space_point.sub current_point
    let distance_to_plane := qabs (direction_between_points.dot current_surface_normal)
    decide (distance_to_plane < plane_distance_threshold)

/-- `normal_similarity_heuristic` (`Device/includes/ReSTIR/DI/Utils.h`
lines 206-212).  Transcribed exactly as written: the guard tests
`use_normal_similarity_heuristic` un-negated, so the heuristic passes
unconditionally when its enable flag is set and applies the threshold
test when the flag is cleared. -/
def normal_similarity_heuristic (restir_di_settings : ReSTIRDISettings)
    (current_normal neighbor_normal : Float3) (threshold : ℚ) : Bool :=
  if restir_di_settings.use_normal_similarity_heuristic then true
  else decide (current_normal.dot neighbor_normal > threshold)

/-- `roughness_similarity_heuristic` (`Device/includes/ReSTIR/DI/Utils.h`
lines 214-229). -/
def roughness_similarity_heuristic (restir_di_settings : ReSTIRDISettings)
    (neighbor_roughness center_pixel_roughness threshold : ℚ) : Bool :=
  if ¬ restir_di_settings.use_roughness_similarity_heuristic then true
  else decide (qabs (neighbor_roughness - center_pixel_roughness) < threshold)

/-- `check_neighbor_similarity_heuristics`
(`Device/includes/ReSTIR/DI/Utils.h` lines 231-243). -/
def check_neighbor_similarity_heuristics (rd : HIPRTRenderData)
    (neighbor_index center_pixel_index : ℤ)
    (current_shading_point current_normal : Float3) : Bool :=
  let s := rd.render_settings.restir_di_settings
  let neighbor_world_space_point := rd.g_buffer_first_hits neighbor_index
  let neighbor_roughness := (rd.g_buffer_materials neighbor_index).roughness
  let current_material_roughness := (rd.g_buffer_materials center_pixel_index).roughness
  let plane_distance_passed := plane_distance_heuristic s neighbor_world_space_point
    current_shading_point current_normal s.plane_distance_threshold
  let normal_similarity_passed := normal_similarity_heuristic s current_normal
    (rd.g_buffer_shading_normals neighbor_index) s.normal_similarity_angle_precomp
  let roughness_similarity_passed := roughness_similarity_heuristic s
    neighbor_roughness current_material_roughness s.roughness_similarity_threshold
  plane_distance_passed && normal_similarity_passed && roughness_similarity_passed

/-- `static_cast<int>` of a float: truncation toward zero. -/
def castInt (q : ℚ) : ℤ := if 0 ≤ q then ⌊q⌋ else -⌊-q⌋

/-- C `round`: nearest integer, halves away from zero. -/
def cround (q : ℚ) : ℤ := if 0 ≤ q then ⌊q + 1 / 2⌋ else -⌊-q + 1 / 2⌋

/-- `get_neighbor_pixel_index`
(`Device/kernels/ReSTIR/ReSTIR_DI_SpatialReuse.h` lines 52-88): linear
index of the `neighbor_number`-th spatial neighbor, `-1` when the
generated coordinate falls outside the viewport.  The C++ signature also
receives the worker's random generator by reference but never draws from
it, so the embedding omits that parameter. -/
def get_neighbor_pixel_index (rd : HIPRTRenderData)
    (neighbor_number neighbor_reuse_count : ℕ) (neighbor_reuse_radius : ℤ)
    (center_pixel_coords res : Int2) (cos_sin_theta_rotation : Float2) : ℤ :=
  if neighbor_number = neighbor_reuse_count then
    center_pixel_coords.x + center_pixel_coords.y * res.x
  else
    let uv := rd.sample_hammersley_2D (neighbor_reuse_count + 1) (neighbor_number + 1)
    let neighbor_offset_in_disk := rd.sample_in_disk_uv (neighbor_reuse_radius : ℚ) uv
    let cos_theta := cos_sin_theta_rotation.x
    let sin_theta := cos_sin_theta_rotation.y
    let neighbor_offset_rotated : Float2 :=
      ⟨neighbor_offset_in_disk.x * cos_theta - neighbor_offset_in_disk.y * sin_theta,
        neighbor_offset_in_disk.x * sin_theta + neighbor_offset_in_disk.y * cos_theta⟩
    let neighbor_offset_int : Int2 :=
      ⟨castInt neighbor_offset_rotated.x, castInt neighbor_offset_rotated.y⟩
    let neighbor_pixel_coords : Int2 :=
      ⟨center_pixel_coords.x + neighbor_offset_int.x,
        center_pixel_coords.y + neighbor_offset_int.y⟩
    if neighbor_pixel_coords.x < 0 ∨ neighbor_pixel_coords.x ≥ res.x ∨
        neighbor_pixel_coords.y < 0 ∨ neighbor_pixel_coords.y ≥ res.y then -1
    else neighbor_pixel_coords.x + neighbor_pixel_coords.y * res.x

/-- `get_spatial_neighbor_pixel_index`
(`Device/includes/ReSTIR/DI/Utils.h` lines 268-332): as
`get_neighbor_pixel_index`, plus the debug-location override and the
converged-neighbor rejection logic of adaptive sampling.
`rng_converged_neighbor_reuse` is taken by value, as in the source. -/
def get_spatial_neighbor_pixel_index (rd : HIPRTRenderData)
    (neighbor_number neighbor_reuse_count : ℕ) (neighbor_reuse_radius : ℤ)
    (center_pixel_coords res : Int2) (cos_sin_theta_rotation : Float2)
    (rng_converged_neighbor_reuse : Xorshift32Generator) : ℤ :=
  if neighbor_number = neighbor_reuse_count then
    center_pixel_coords.x + center_pixel_coords.y * res.x
  else
    let uv := rd.sample_hammersley_2D (neighbor_reuse_count + 1) (neighbor_number + 1)
    let neighbor_offset_in_disk := rd.sample_in_disk_uv (neighbor_reuse_radius : ℚ) uv
    let cos_theta := cos_sin_theta_rotation.x
    let sin_theta := cos_sin_theta_rotation.y
    let neighbor_offset_rotated : Float2 :=
      ⟨neighbor_offset_in_disk.x * cos_theta - neighbor_offset_in_disk.y * sin_theta,
        neighbor_offset_in_disk.x * sin_theta + neighbor_offset_in_disk.y * cos_theta⟩
    let neighbor_offset_int : Int2 :=
      ⟨castInt neighbor_offset_rotated.x, castInt neighbor_offset_rotated.y⟩
    let neighbor_pixel_coords : Int2 :=
      if rd.render_settings.restir_di_settings.spatial_pass.debug_neighbor_location then
        ⟨center_pixel_coords.x + 15, center_pixel_coords.y⟩
      else
        ⟨center_pixel_coords.x + neighbor_offset_int.x,
          center_pixel_coords.y + neighbor_offset_int.y⟩
    if neighbor_pixel_coords.x < 0 ∨ neighbor_pixel_coords.x ≥ res.x ∨
        neighbor_pixel_coords.y < 0 ∨ neighbor_pixel_coords.y ≥ res.y then -1
    else
      let neighbor_pixel_index := neighbor_pixel_coords.x + neighbor_pixel_coords.y * res.x
      if rd.render_settings.enable_adaptive_sampling ∧
          rd.render_settings.sample_number ≥ rd.render_settings.adaptive_sampling_min_samples then
        if rd.render_settings.restir_di_settings.spatial_pass.allow_converged_neighbors_reuse then
          if (rng_converged_neighbor_reuse.next).1 >
              rd.render_settings.restir_di_settings.spatial_pass.converged_neighbor_reuse_probability then
            if rd.pixel_converged_sample_count neighbor_pixel_index ≠ -1 then -1
            else neighbor_pixel_index
          else neighbor_pixel_index
        else
          if rd.pixel_converged_sample_count neighbor_pixel_index ≠ -1 then -1
          else neighbor_pixel_index
      else neighbor_pixel_index

/-- The loop of `find_temporal_neighbor_index`
(`Device/includes/ReSTIR/DI/Utils.h` lines 353-374), written as structural
recursion on the remaining iteration count; `i` is the iteration index of
the source loop. -/
def find_temporal_neighbor_go (rd : HIPRTRenderData) (resolution : Int2)
    (center_pixel_index : ℤ) (current_shading_point current_normal : Float3)
    (prev_pixel_float : Float2) :
    ℕ → ℕ → Xorshift32Generator → ℤ
  | _, 0, _ => -1
  | i, fuel + 1, rng =>
    let step :=
      if 0 < i then
        let d1 := rng.next
        let d2 := d1.2.next
        let radius := rd.render_settings.restir_di_settings.temporal_pass.neighbor_search_radius
        ((⟨(d1.1 - 1 / 2) * radius, (d2.1 - 1 / 2) * radius⟩ : Float2), d2.2)
      else ((⟨0, 0⟩ : Float2), rng)
    let pos : Int2 := ⟨cround (prev_pixel_float.x + step.1.x),
      cround (prev_pixel_float.y + step.1.y)⟩
    if pos.x < 0 ∨ pos.x ≥ resolution.x ∨ pos.y < 0 ∨ pos.y ≥ resolution.y then
      find_temporal_neighbor_go rd resolution center_pixel_index current_shading_point
        current_normal prev_pixel_float (i + 1) fuel step.2
    else
      let temporal_neighbor_index := pos.x + pos.y * resolution.x
      if check_neighbor_similarity_heuristics rd temporal_neighbor_index
          center_pixel_index current_shading_point current_normal then
        temporal_neighbor_index
      else
        find_temporal_neighbor_go rd resolution center_pixel_index current_shading_point
          current_normal prev_pixel_float (i + 1) fuel step.2

/-- The back-projected floating-point pixel location of
`find_temporal_neighbor_index` (`Device/includes/ReSTIR/DI/Utils.h`
lines 340-349): previous-frame clip space brought to `[0,1]`, scaled to
pixels, shifted by the half-pixel center convention. -/
def temporalReprojectedPixel (rd : HIPRTRenderData)
    (current_shading_point : Float3) (resolution : Int2) : Float2 :=
  let p := rd.prev_view_projection current_shading_point
  let screen : Float2 := ⟨(p.x + 1) * (1 / 2), (p.y + 1) * (1 / 2)⟩
  ⟨screen.x * (resolution.x : ℚ) - 1 / 2, screen.y * (resolution.y : ℚ) - 1 / 2⟩

/-- `find_temporal_neighbor_index`
(`Device/includes/ReSTIR/DI/Utils.h` lines 338-377).
`center_pixel_coords` and `center_pixel_roughness` are received but not
read, as in the source. -/
def find_temporal_neighbor_index (rd : HIPRTRenderData)
    (current_shading_point current_normal : Float3) (resolution : Int2)
    (_center_pixel_coords : Int2) (center_pixel_index : ℤ)
    (_center_pixel_roughness : ℚ) (rng : Xorshift32Generator) : ℤ :=
  let prev_pixel_float := temporalReprojectedPixel rd current_shading_point resolution
  find_temporal_neighbor_go rd resolution center_pixel_index current_shading_point
    current_normal prev_pixel_float 0
    (rd.render_settings.restir_di_settings.temporal_pass.max_neighbor_search_count + 1) rng

/-- One iteration of the generalized-balance-heuristic loop of
`get_spatial_reuse_resampling_MIS_weight`
(`Device/kernels/ReSTIR/ReSTIR_DI_SpatialReuse.h` lines 103-121),
accumulating `(nume, denom)`. -/
def gbh_step (rd : HIPRTRenderData) (neighbor_reservoir : ReSTIRDIReservoir)
    (current_neighbor reused_neighbors_count : ℕ) (center_pixel_coords res : Int2)
    (cos_sin_theta_rotation : Float2) (nd : ℚ × ℚ) (j : ℕ) : ℚ × ℚ :=
  let neighbor_index_j := get_neighbor_pixel_index rd j reused_neighbors_count
    rd.render_settings.restir_di_settings.spatial_pass.spatial_reuse_radius
    center_pixel_coords res cos_sin_theta_rotation
  if neighbor_index_j = -1 then nd
  else
    let neighbor_surface := rd.get_pixel_surface neighbor_index_j
    let target_function_at_j := ReSTIR_DI_evaluate_target_function
      rd.kopts.spatialReuseBiasUseVisibility rd neighbor_reservoir.sample neighbor_surface
    let M : ℕ :=
      if rd.kopts.biasCorrectionWeights = BiasCorrectionMode.misGBHConfidence then
        (rd.render_settings.restir_di_settings.spatial_pass.input_reservoirs
          neighbor_index_j).M
      else 1
    (if j = current_neighbor then target_function_at_j * (M : ℚ) else nd.1,
      nd.2 + target_function_at_j * (M : ℚ))

/-- The `(nume, denom)` pair accumulated by the generalized-balance-
heuristic loop over all neighbor ordinals `0..reused_neighbors_count`. -/
def gbh_nume_denom (rd : HIPRTRenderData) (neighbor_reservoir : ReSTIRDIReservoir)
    (current_neighbor reused_neighbors_count : ℕ) (center_pixel_coords res : Int2)
    (cos_sin_theta_rotation : Float2) : ℚ × ℚ :=
  (List.range (reused_neighbors_count + 1)).foldl
    (gbh_step rd neighbor_reservoir current_neighbor reused_neighbors_count
      center_pixel_coords res cos_sin_theta_rotation) (0, 0)

/-- `get_spatial_reuse_resampling_MIS_weight`
(`Device/kernels/ReSTIR/ReSTIR_DI_SpatialReuse.h` lines 90-130); the
compile-time `#if` on `ReSTIR_DI_BiasCorrectionWeights` becomes a match
on the configured mode.  The C++ signature also receives the worker's
random generator by reference but its callees never draw from it, so the
embedding omits that parameter. -/
def get_spatial_reuse_resampling_MIS_weight (rd : HIPRTRenderData)
    (neighbor_reservoir : ReSTIRDIReservoir)
    (current_neighbor reused_neighbors_count : ℕ) (center_pixel_coords res : Int2)
    (cos_sin_theta_rotation : Float2) : ℚ :=
  match rd.kopts.biasCorrectionWeights with
  | BiasCorrectionMode.oneOverM | BiasCorrectionMode.oneOverZ =>
    (neighbor_reservoir.M : ℚ)
  | BiasCorrectionMode.misLike | BiasCorrectionMode.misLikeConfidence => 1
  | BiasCorrectionMode.misGBH | BiasCorrectionMode.misGBHConfidence =>
    let nd := gbh_nume_denom rd neighbor_reservoir current_neighbor
      reused_neighbors_count center_pixel_coords res cos_sin_theta_rotation
    if nd.2 = 0 then 0 else nd.1 / nd.2

/-- `get_spatial_reuse_normalization_denominator_numerator`
(`Device/kernels/ReSTIR/ReSTIR_DI_SpatialReuse.h` lines 132-208),
returning `(nume, denom)`; the compile-time `#if` on the bias-correction
mode becomes a match.  The worker's random generator parameter is
omitted, as its callees never draw from it. -/
def get_spatial_reuse_normalization_denominator_numerator (rd : HIPRTRenderData)
    (new_reservoir : ReSTIRDIReservoir) (selected_neighbor : ℕ)
    (reused_neighbors_count : ℕ) (center_pixel_coords res : Int2)
    (cos_sin_theta_rotation : Float2) : ℚ × ℚ :=
  if new_reservoir.weight_sum ≤ 0 then (1, 1)
  else
    match rd.kopts.biasCorrectionWeights with
    | BiasCorrectionMode.oneOverM =>
      let denom := (List.range (reused_neighbors_count + 1)).foldl (fun acc neighbor =>
        let neighbor_pixel_index := get_neighbor_pixel_index rd neighbor
          reused_neighbors_count
          rd.render_settings.restir_di_settings.spatial_pass.spatial_reuse_radius
          center_pixel_coords res cos_sin_theta_rotation
        if neighbor_pixel_index = -1 then acc
        else
          let neighbor_reservoir :=
            rd.render_settings.restir_di_settings.spatial_pass.input_reservoirs
              neighbor_pixel_index
          acc + (neighbor_reservoir.M : ℚ)) 0
      (1, denom)
    | BiasCorrectionMode.oneOverZ | BiasCorrectionMode.misLike
    | BiasCorrectionMode.misLikeConfidence =>
      let init_nume : ℚ :=
        if rd.kopts.biasCorrectionWeights = BiasCorrectionMode.oneOverZ then 1 else 0
      (List.range (reused_neighbors_count + 1)).foldl (fun nd neighbor =>
        let neighbor_pixel_index := get_neighbor_pixel_index rd neighbor
          reused_neighbors_count
          rd.render_settings.restir_di_settings.spatial_pass.spatial_reuse_radius
          center_pixel_coords res cos_sin_theta_rotation
        if neighbor_pixel_index = -1 then nd
        else
          let neighbor_surface := rd.get_pixel_surface neighbor_pixel_index
          let target_function_at_neighbor := ReSTIR_DI_evaluate_target_function
            rd.kopts.spatialReuseBiasUseVisibility rd new_reservoir.sample
            neighbor_surface
          if target_function_at_neighbor > 0 then
            let neighbor_reservoir :=
              rd.render_settings.restir_di_settings.spatial_pass.input_reservoirs
                neighbor_pixel_index
            match rd.kopts.biasCorrectionWeights with
            | BiasCorrectionMode.oneOverZ =>
              (nd.1, nd.2 + (neighbor_reservoir.M : ℚ))
            | BiasCorrectionMode.misLike =>
              ((if neighbor = selected_neighbor then nd.1 + target_function_at_neighbor
                else nd.1),
                nd.2 + target_function_at_neighbor)
            | _ =>
              ((if neighbor = selected_neighbor then
                  nd.1 + target_function_at_neighbor * (neighbor_reservoir.M : ℚ)
                else nd.1),
                nd.2 + target_function_at_neighbor * (neighbor_reservoir.M : ℚ))
          else nd) (init_nume, 0)
    | BiasCorrectionMode.misGBH | BiasCorrectionMode.misGBHConfidence => (1, 1)

/-- `ReSTIRDISpatialNormalizationWeight<Mode>::get_normalization`
(`Device/includes/ReSTIR/DI/SpatialNormalizationWeight.h`), the six
template specializations folded into a match on the mode; returns
`(nume, denom)`.  Each loop draws its spatial neighbor indices with a
fresh `Xorshift32Generator(render_data.random_seed)` as the source does,
and filters by the similarity heuristics.  The MIS-GBH specializations
(lines 223-253) return `(1, 1)` unconditionally, without the
`weight_sum` short-circuit of the other specializations. -/
def ReSTIRDISpatialNormalizationWeight_get_normalization (rd : HIPRTRenderData)
    (final_reservoir : ReSTIRDIReservoir) (center_pixel_surface : ReSTIRDISurface)
    (selected_neighbor : ℕ) (reused_neighbors_count : ℕ)
    (center_pixel_coords res : Int2) (cos_sin_theta_rotation : Float2) : ℚ × ℚ :=
  match rd.kopts.biasCorrectionWeights with
  | BiasCorrectionMode.misGBH | BiasCorrectionMode.misGBHConfidence => (1, 1)
  | mode =>
    if final_reservoir.weight_sum ≤ 0 then (1, 1)
    else
      let init_nume : ℚ := if mode = BiasCorrectionMode.oneOverM ∨
        mode = BiasCorrectionMode.oneOverZ then 1 else 0
      (List.range (reused_neighbors_count + 1)).foldl (fun nd neighbor =>
        let neighbor_pixel_index := get_spatial_neighbor_pixel_index rd neighbor
          reused_neighbors_count
          rd.render_settings.restir_di_settings.spatial_pass.spatial_reuse_radius
          center_pixel_coords res cos_sin_theta_rotation
          (rd.rng_from_seed rd.random_seed)
        if neighbor_pixel_index = -1 then nd
        else
          let center_pixel_index := center_pixel_coords.x + center_pixel_coords.y * res.x
          if ¬ check_neighbor_similarity_heuristics rd neighbor_pixel_index
              center_pixel_index center_pixel_surface.shading_point
              center_pixel_surface.shading_normal then nd
          else
            match mode with
            | BiasCorrectionMode.oneOverM =>
              let neighbor_reservoir :=
                rd.render_settings.restir_di_settings.spatial_pass.input_reservoirs
                  neighbor_pixel_index
              (nd.1, nd.2 + (neighbor_reservoir.M : ℚ))
            | BiasCorrectionMode.oneOverZ =>
              let neighbor_surface := rd.get_pixel_surface neighbor_pixel_index
              let target_function_at_neighbor :=
                if rd.render_settings.restir_di_settings.spatial_pass.spatial_pass_index = 0
                then ReSTIR_DI_evaluate_target_function
                  rd.kopts.biasCorrectionUseVisibility rd final_reservoir.sample
                  neighbor_surface
                else ReSTIR_DI_evaluate_target_function false rd final_reservoir.sample
                  neighbor_surface
              if target_function_at_neighbor > 0 then
                let neighbor_reservoir :=
                  rd.render_settings.restir_di_settings.spatial_pass.input_reservoirs
                    neighbor_pixel_index
                (nd.1, nd.2 + (neighbor_reservoir.M : ℚ))
              else nd
            | BiasCorrectionMode.misLike =>
              let neighbor_surface := rd.get_pixel_surface neighbor_pixel_index
              let target_function_at_neighbor := ReSTIR_DI_evaluate_target_function
                rd.kopts.biasCorrectionUseVisibility rd final_reservoir.sample
                neighbor_surface
              if target_function_at_neighbor > 0 then
                ((if neighbor = selected_neighbor then nd.1 + target_function_at_neighbor
                  else nd.1),
                  nd.2 + target_function_at_neighbor)
              else nd
            | _ =>
              let neighbor_surface := rd.get_pixel_surface neighbor_pixel_index
              let target_function_at_neighbor := ReSTIR_DI_evaluate_target_function
                rd.kopts.biasCorrectionUseVisibility rd final_reservoir.sample
                neighbor_surface
              if target_function_at_neighbor > 0 then
                let neighbor_reservoir :=
                  rd.render_settings.restir_di_settings.spatial_pass.input_reservoirs
                    neighbor_pixel_index
                ((if neighbor = selected_neighbor then nd.1 + target_function_at_neighbor
                  else nd.1),
                  nd.2 + target_function_at_neighbor * (neighbor_reservoir.M : ℚ))
              else nd) (init_nume, 0)

/-- Mutable state of the spatial-reuse combine loop
(`Device/kernels/ReSTIR/ReSTIR_DI_SpatialReuse.h` lines 252-338):
the accumulating reservoir, the last selected neighbor ordinal, and the
worker's random generator. -/
structure SpatialLoopState where
  reservoir : ReSTIRDIReservoir
  selected_neighbor : ℕ
  rng : Xorshift32Generator

/-- One iteration of the spatial-reuse combine loop
(`Device/kernels/ReSTIR/ReSTIR_DI_SpatialReuse.h` lines 270-338) for
neighbor ordinal `neighbor`: skip out-of-viewport neighbors; for a
`UCW == 0` neighbor only accumulate its `M`; otherwise evaluate the
target function at the center (the cached score when resampling self),
compute the reconnection-shift jacobian (skipped for self or a zero
target function, in which case it stays `1`), reject with `M`
accumulation when the jacobian is the `-1` sentinel, and otherwise
combine with the MIS resampling weight. -/
def spatialReuseStep (rd : HIPRTRenderData) (center_pixel_surface : ReSTIRDISurface)
    (reused_neighbors_count : ℕ) (center_pixel_coords res : Int2)
    (cos_sin_theta_rotation : Float2) (st : SpatialLoopState) (neighbor : ℕ) :
    SpatialLoopState :=
  let neighbor_pixel_index := get_neighbor_pixel_index rd neighbor reused_neighbors_count
    rd.render_settings.restir_di_settings.spatial_pass.spatial_reuse_radius
    center_pixel_coords res cos_sin_theta_rotation
  if neighbor_pixel_index = -1 then st
  else
    let neighbor_reservoir :=
      rd.render_settings.restir_di_settings.spatial_pass.input_reservoirs
        neighbor_pixel_index
    if neighbor_reservoir.UCW = 0 then
      { st with reservoir :=
          { st.reservoir with M := st.reservoir.M + neighbor_reservoir.M } }
    else
      let target_function_at_center :=
        if neighbor = reused_neighbors_count then
          neighbor_reservoir.sample.target_function
        else ReSTIR_DI_evaluate_target_function rd.kopts.targetFunctionVisibility rd
          neighbor_reservoir.sample center_pixel_surface
      let jacobian_determinant :=
        if target_function_at_center > 0 ∧ neighbor_reservoir.UCW ≠ 0 ∧
            neighbor ≠ reused_neighbors_count then
          get_jacobian_determinant_reconnection_shift_at_pixel rd neighbor_reservoir
            center_pixel_surface.shading_point neighbor_pixel_index
        else 1
      if jacobian_determinant = -1 then
        { st with reservoir :=
            { st.reservoir with M := st.reservoir.M + neighbor_reservoir.M } }
      else
        let mis_weight :=
          if target_function_at_center > 0 then
            get_spatial_reuse_resampling_MIS_weight rd neighbor_reservoir neighbor
              reused_neighbors_count center_pixel_coords res cos_sin_theta_rotation
          else 1
        let combined := st.reservoir.combine_with neighbor_reservoir mis_weight
          target_function_at_center jacobian_determinant st.rng
        { reservoir := (combined.1.1).sanity_check center_pixel_coords
          selected_neighbor := if combined.1.2 then neighbor else st.selected_neighbor
          rng := combined.2 }

/-- The whole spatial-reuse combine loop, folded over neighbor ordinals
`0..reused_neighbors_count` from the fresh reservoir. -/
def spatialReuseLoop (rd : HIPRTRenderData) (center_pixel_surface : ReSTIRDISurface)
    (reused_neighbors_count : ℕ) (center_pixel_coords res : Int2)
    (cos_sin_theta_rotation : Float2) (rng : Xorshift32Generator) : SpatialLoopState :=
  (List.range (reused_neighbors_count + 1)).foldl
    (spatialReuseStep rd center_pixel_surface reused_neighbors_count
      center_pixel_coords res cos_sin_theta_rotation)
    { reservoir := ReSTIRDIReservoir.init, selected_neighbor := 0, rng := rng }

/-- The `ReSTIR_DI_SpatialReuse` kernel
(`Device/kernels/ReSTIR/ReSTIR_DI_SpatialReuse.h` lines 229-386) for the
worker of pixel `(x, y)`: the reservoir value written to
`output_reservoirs[center_pixel_index]`, or `none` when the pixel index
is outside the viewport (the early return). -/
def ReSTIR_DI_SpatialReuse (rd : HIPRTRenderData) (res : Int2) (x y : ℕ) :
    Option ReSTIRDIReservoir :=
  let center_pixel_index : ℤ := (x : ℤ) + (y : ℤ) * res.x
  if center_pixel_index ≥ res.x * res.y then none
  else
    let seed :=
      if rd.render_settings.freeze_random then rd.wang_hash (center_pixel_index.toNat + 1)
      else rd.wang_hash ((center_pixel_index.toNat + 1) *
        (rd.render_settings.sample_number + 1) * rd.random_seed)
    let rng0 := rd.rng_from_seed seed
    let center_pixel_coords : Int2 := ⟨(x : ℤ), (y : ℤ)⟩
    let center_pixel_surface := rd.get_pixel_surface center_pixel_index
    let rotation_draw := rng0.next
    let cs := rd.cos_sin_of rotation_draw.1
    let cos_sin_theta_rotation : Float2 := ⟨cs.1, cs.2⟩
    let reused_neighbors_count :=
      rd.render_settings.restir_di_settings.spatial_pass.spatial_reuse_neighbor_count
    let final_state := spatialReuseLoop rd center_pixel_surface reused_neighbors_count
      center_pixel_coords res cos_sin_theta_rotation rotation_draw.2
    let nd := get_spatial_reuse_normalization_denominator_numerator rd
      final_state.reservoir final_state.selected_neighbor reused_neighbors_count
      center_pixel_coords res cos_sin_theta_rotation
    let normalized := (final_state.reservoir.end_normalized nd.1 nd.2).sanity_check
      center_pixel_coords
    let capped :=
      if rd.render_settings.restir_di_settings.m_cap > 0 then
        { normalized with
            M := min rd.render_settings.restir_di_settings.m_cap normalized.M }
      else normalized
    let after_visibility :=
      if rd.kopts.doVisibilityReuse ∧
          rd.kopts.biasCorrectionWeights = BiasCorrectionMode.oneOverZ ∧
          rd.render_settings.restir_di_settings.spatial_pass.number_of_passes > 1 then
        (spatial_visibility_reuse rd capped center_pixel_surface.shading_point).1
      else capped
    some after_visibility

/-! Concrete fixtures used by the witness theorems. -/

/-- A concrete surface: origin, normal and view direction along +z. -/
def exampleSurface : ReSTIRDISurface :=
  { shading_point := ⟨0, 0, 0⟩
    shading_normal := ⟨0, 0, 1⟩
    view_direction := ⟨0, 0, 1⟩
    material := { roughness := 0, emission := ⟨0, 0, 0⟩ }
    ray_volume_state := (0 : ℤ) }

/-- A concrete settings block: all similarity heuristics disabled,
one spatial neighbor, `m_cap = 3`. -/
def exampleSettings : ReSTIRDISettings :=
  { use_plane_distance_heuristic := false
    plane_distance_threshold := 1
    use_normal_similarity_heuristic := false
    normal_similarity_angle_precomp := 9 / 10
    use_roughness_similarity_heuristic := false
    roughness_similarity_threshold := 1
    m_cap := 3
    spatial_pass :=
      { spatial_reuse_radius := 2
        spatial_reuse_neighbor_count := 1
        debug_neighbor_location := false
        allow_converged_neighbors_reuse := false
        converged_neighbor_reuse_probability := 1 / 2
        number_of_passes := 1
        spatial_pass_index := 0
        input_reservoirs := fun _ => ReSTIRDIReservoir.init }
    temporal_pass := { max_neighbor_search_count := 1, neighbor_search_radius := 4 } }

/-- A concrete render-data environment.  The geometry of the fixtures is
kept at unit distances so that the identity `sqrtQ` backend is exact on
every length the witnesses evaluate. -/
def exampleRD : HIPRTRenderData :=
  { render_settings :=
      { restir_di_settings := exampleSettings
        enable_adaptive_sampling := false
        sample_number := 0
        adaptive_sampling_min_samples := 0
        freeze_random := true }
    kopts :=
      { targetFunctionVisibility := false
        spatialReuseBiasUseVisibility := false
        biasCorrectionUseVisibility := false
        biasCorrectionWeights := BiasCorrectionMode.misGBH
        doVisibilityReuse := false }
    random_seed := 1
    material_indices := fun _ => 0
    materials_buffer := fun _ => { roughness := 0, emission := ⟨1, 1, 1⟩ }
    g_buffer_first_hits := fun _ => ⟨0, 0, 0⟩
    g_buffer_shading_normals := fun _ => ⟨0, 0, 1⟩
    g_buffer_materials := fun _ => { roughness := 0, emission := ⟨0, 0, 0⟩ }
    pixel_converged_sample_count := fun _ => -1
    prev_view_projection := fun p => p
    bsdf_eval := fun _ _ _ _ _ => ⟨1, 1, 1⟩
    envmap_eval := fun _ => ⟨1, 1, 1⟩
    evaluate_shadow_ray := fun _ _ _ => false
    get_pixel_surface := fun _ => exampleSurface
    get_triangle_normal_non_normalized := fun _ => ⟨0, 0, 1⟩
    sqrtQ := fun q => q
    cos_sin_of := fun _ => (1, 0)
    sample_hammersley_2D := fun _ _ => ⟨0, 0⟩
    sample_in_disk_uv := fun _ _ => ⟨0, 0⟩
    wang_hash := fun n => n
    rng_from_seed := fun _ => ⟨fun _ => 1 / 2, 0⟩ }

/-- A concrete reservoir holding a valid emissive-triangle sample one
unit above the origin. -/
def exampleReservoir : ReSTIRDIReservoir :=
  { sample :=
      { point_on_light_source := ⟨0, 0, 1⟩
        emissive_triangle_index := 0
        flags := ⟨false⟩
        target_function := 2 }
    weight_sum := 4
    M := 2
    UCW := 5 }

/-- A sample that encodes neither an emissive triangle nor an
environment-map sample. -/
def exampleInvalidSample : ReSTIRDISample :=
  { point_on_light_source := ⟨0, 0, 1⟩
    emissive_triangle_index := -1
    flags := ⟨false⟩
    target_function := 0 }

/-- The settings block with the normal-similarity heuristic enabled. -/
def exampleSettingsNormalOn : ReSTIRDISettings :=
  { exampleSettings with use_normal_similarity_heuristic := true }

/-- The render-data environment whose shadow rays are always occluded. -/
def exampleRDOccluded : HIPRTRenderData :=
  { exampleRD with evaluate_shadow_ray := fun _ _ _ => true }

/-! Observation projections used to state the theorems: each replays
exactly the ray parameters its source function builds, so that the
occlusion outcome of the traced ray can be named in a statement. -/

/-- The shadow-ray occlusion outcome `ReSTIR_DI_visibility_reuse` observes
(`true` = occluded). -/
def visibilityReuseShadowQuery (rd : HIPRTRenderData) (reservoir : ReSTIRDIReservoir)
    (shading_point : Float3) : Bool :=
  let v := reservoir.sample.point_on_light_source.sub shading_point
  let sample_direction := if reservoir.sample.flags.envmap_sample then
      reservoir.sample.point_on_light_source
    else v.divs (hipptLength rd v)
  let distance_to_light := if reservoir.sample.flags.envmap_sample then (10 : ℚ) ^ 35
    else hipptLength rd v
  rd.evaluate_shadow_ray shading_point sample_direction distance_to_light

/-- The shadow-ray occlusion outcome `spatial_visibility_reuse` observes. -/
def spatialVisibilityShadowQuery (rd : HIPRTRenderData) (reservoir : ReSTIRDIReservoir)
    (shading_point : Float3) : Bool :=
  let v := reservoir.sample.point_on_light_source.sub shading_point
  let distance_to_light := hipptLength rd v
  rd.evaluate_shadow_ray shading_point (v.divs distance_to_light) distance_to_light

/-- The shadow-ray occlusion outcome the visibility-aware target-function
evaluator observes. -/
def targetFnShadowQuery (rd : HIPRTRenderData) (sample : ReSTIRDISample)
    (surface : ReSTIRDISurface) : Bool :=
  rd.evaluate_shadow_ray surface.shading_point
    (targetFnSampleDirection rd sample surface)
    (targetFnDistanceToLight rd sample surface)

/-- Jitter offset of the `i`-th probe of the temporal neighbor search:
zero for the first probe, a radius-scaled random offset drawn from stream
positions `2(i-1)` and `2(i-1)+1` past the generator's cursor for the
following probes (the draws the executed loop iterations consume, in
order). -/
def temporalProbeOffset (rd : HIPRTRenderData) (rng : Xorshift32Generator)
    (i : ℕ) : Float2 :=
  if i = 0 then ⟨0, 0⟩
  else
    let radius := rd.render_settings.restir_di_settings.temporal_pass.neighbor_search_radius
    ⟨(rng.seq (rng.idx + 2 * (i - 1)) - 1 / 2) * radius,
      (rng.seq (rng.idx + 2 * (i - 1) + 1) - 1 / 2) * radius⟩

/-- Pixel position of the `i`-th probe of the temporal neighbor search. -/
def temporalProbePos (rd : HIPRTRenderData) (prev_pixel_float : Float2)
    (rng : Xorshift32Generator) (i : ℕ) : Int2 :=
  ⟨cround (prev_pixel_float.x + (temporalProbeOffset rd rng i).x),
    cround (prev_pixel_float.y + (temporalProbeOffset rd rng i).y)⟩

/-- Whether the `i`-th probe of the temporal neighbor search is admitted:
inside the viewport and passing the similarity heuristics at its pixel. -/
def temporalProbeAdmitted (rd : HIPRTRenderData) (resolution : Int2)
    (center_pixel_index : ℤ) (current_shading_point current_normal : Float3)
    (prev_pixel_float : Float2) (rng : Xorshift32Generator) (i : ℕ) : Bool :=
  let pos := temporalProbePos rd prev_pixel_float rng i
  decide (0 ≤ pos.x) && decide (pos.x < resolution.x) &&
    decide (0 ≤ pos.y) && decide (pos.y < resolution.y) &&
    check_neighbor_similarity_heuristics rd (pos.x + pos.y * resolution.x)
      center_pixel_index current_shading_point current_normal

/-- Sum of the `M` values of the admitted (non-invalid) spatial neighbors
visited by the combine loop. -/
def sumAdmittedM (rd : HIPRTRenderData) (reused_neighbors_count : ℕ)
    (center_pixel_coords res : Int2) (cos_sin_theta_rotation : Float2) : ℕ :=
  ((List.range (reused_neighbors_count + 1)).map (fun j =>
    let idx := get_neighbor_pixel_index rd j reused_neighbors_count
      rd.render_settings.restir_di_settings.spatial_pass.spatial_reuse_radius
      center_pixel_coords res cos_sin_theta_rotation
    if idx = -1 then 0
    else (rd.render_settings.restir_di_settings.spatial_pass.input_reservoirs idx).M)).sum

/-! Shared lemmas. -/

theorem combine_with_rejected_eq (self candidate : ReSTIRDIReservoir)
    (mis_weight target_function jacobian : ℚ) (rng : Xorshift32Generator)
    (h : jacobian < 0 ∨ candidate.UCW ≤ 0) :
    self.combine_with candidate mis_weight target_function jacobian rng =
      (({ self with M := self.M + candidate.M }, false), rng) := by
  unfold ReSTIRDIReservoir.combine_with
  rw [if_pos h]

theorem combine_with_M (self candidate : ReSTIRDIReservoir)
    (mis_weight target_function jacobian : ℚ) (rng : Xorshift32Generator) :
    ((self.combine_with candidate mis_weight target_function jacobian rng).1.1).M =
      self.M + candidate.M := by
  unfold ReSTIRDIReservoir.combine_with
  split <;> rfl

theorem sanity_check_eq (r : ReSTIRDIReservoir) (c : Int2) :
    r.sanity_check c = r := rfl

/-- `spatialReuseStep` accumulates the admitted neighbor's `M` on every
control path. -/
theorem spatialReuseStep_M (rd : HIPRTRenderData) (surf : ReSTIRDISurface)
    (cnt : ℕ) (coords res : Int2) (rot : Float2) (st : SpatialLoopState) (j : ℕ) :
    (spatialReuseStep rd surf cnt coords res rot st j).reservoir.M =
      st.reservoir.M +
        (if get_neighbor_pixel_index rd j cnt
            rd.render_settings.restir_di_settings.spatial_pass.spatial_reuse_radius
            coords res rot = -1 then 0
          else (rd.render_settings.restir_di_settings.spatial_pass.input_reservoirs
            (get_neighbor_pixel_index rd j cnt
              rd.render_settings.restir_di_settings.spatial_pass.spatial_reuse_radius
              coords res rot)).M) := by
  unfold spatialReuseStep
  by_cases hidx : get_neighbor_pixel_index rd j cnt
      rd.render_settings.restir_di_settings.spatial_pass.spatial_reuse_radius
      coords res rot = -1
  · simp [hidx]
  · rw [if_neg hidx, if_neg hidx]
    simp only [sanity_check_eq]
    split_ifs <;> simp [combine_with_M]

/-! Claim theorems. -/

/-- C1: In the reservoir combination step, a negative jacobian (the
shift-rejected sentinel) or a non-positive candidate `UCW` contributes
resampling weight 0 — `weight_sum` and the stored sample are unchanged
and the candidate is not selected — while `M` still accumulates the
candidate's `M`; consequently an admitted spatial neighbor whose
reservoir `UCW` is non-positive (including the negative occluded
sentinel) never contributes weight in the spatial combine loop: it leaves
the combining reservoir's `weight_sum` and sample unchanged and only adds
its `M`. -/
theorem combine_rejected_contributes_only_M :
    (∀ (self candidate : ReSTIRDIReservoir) (mis_weight target_function jacobian : ℚ)
      (rng : Xorshift32Generator),
      jacobian < 0 ∨ candidate.UCW ≤ 0 →
      (self.combine_with candidate mis_weight target_function jacobian rng).1.1.weight_sum
          = self.weight_sum ∧
      (self.combine_with candidate mis_weight target_function jacobian rng).1.1.sample
          = self.sample ∧
      (self.combine_with candidate mis_weight target_function jacobian rng).1.1.M
          = self.M + candidate.M ∧
      (self.combine_with candidate mis_weight target_function jacobian rng).1.2 = false) ∧
    (∀ (rd : HIPRTRenderData) (surf : ReSTIRDISurface) (cnt : ℕ) (coords res : Int2)
      (rot : Float2) (st : SpatialLoopState) (j : ℕ),
      get_neighbor_pixel_index rd j cnt
          rd.render_settings.restir_di_settings.spatial_pass.spatial_reuse_radius
          coords res rot ≠ -1 →
      (rd.render_settings.restir_di_settings.spatial_pass.input_reservoirs
          (get_neighbor_pixel_index rd j cnt
            rd.render_settings.restir_di_settings.spatial_pass.spatial_reuse_radius
            coords res rot)).UCW ≤ 0 →
      (spatialReuseStep rd surf cnt coords res rot st j).reservoir.weight_sum
          = st.reservoir.weight_sum ∧
      (spatialReuseStep rd surf cnt coords res rot st j).reservoir.sample
          = st.reservoir.sample ∧
      (spatialReuseStep rd surf cnt coords res rot st j).reservoir.M
          = st.reservoir.M +
            (rd.render_settings.restir_di_settings.spatial_pass.input_reservoirs
              (get_neighbor_pixel_index rd j cnt
                rd.render_settings.restir_di_settings.spatial_pass.spatial_reuse_radius
                coords res rot)).M) := by
  constructor
  · intro self candidate mis_weight target_function jacobian rng h
    rw [combine_with_rejected_eq self candidate mis_weight target_function jacobian rng h]
    exact ⟨rfl, rfl, rfl, rfl⟩
  · intro rd surf cnt coords res rot st j hidx hucw
    unfold spatialReuseStep
    rw [if_neg hidx]
    simp only [sanity_check_eq]
    by_cases h0 : (rd.render_settings.restir_di_settings.spatial_pass.input_reservoirs
        (get_neighbor_pixel_index rd j cnt
          rd.render_settings.restir_di_settings.spatial_pass.spatial_reuse_radius
          coords res rot)).UCW = 0
    · simp [h0]
    · rw [if_neg h0]
      split_ifs <;>
        first
          | exact ⟨rfl, rfl, rfl⟩
          | (rw [combine_with_rejected_eq _ _ _ _ _ _ (Or.inr hucw)]
             exact ⟨rfl, rfl, rfl⟩)

/-- C1 witness: concrete application of the combination-step part at a
candidate carrying the negative occluded sentinel. -/
theorem combine_rejected_contributes_only_M_witness :
    (exampleReservoir.combine_with { exampleReservoir with UCW := -1 } 1 1 1
        ⟨fun _ => 0, 0⟩).1.1.weight_sum = exampleReservoir.weight_sum ∧
    (exampleReservoir.combine_with { exampleReservoir with UCW := -1 } 1 1 1
        ⟨fun _ => 0, 0⟩).1.1.sample = exampleReservoir.sample ∧
    (exampleReservoir.combine_with { exampleReservoir with UCW := -1 } 1 1 1
        ⟨fun _ => 0, 0⟩).1.1.M = exampleReservoir.M + exampleReservoir.M ∧
    (exampleReservoir.combine_with { exampleReservoir with UCW := -1 } 1 1 1
        ⟨fun _ => 0, 0⟩).1.2 = false :=
  combine_rejected_contributes_only_M.1 exampleReservoir
    { exampleReservoir with UCW := -1 } 1 1 1 ⟨fun _ => 0, 0⟩ (Or.inr (by norm_num))

/-- C2: evaluation of the code at the failing input.  With the
normal-similarity enable flag set and anti-parallel normals — a dot
product of `-1`, far below the `9/10` threshold — the heuristic still
reports a pass, and with the flag cleared it applies the threshold test
and fails an orthogonal pair; the enable-flag check of
`normal_similarity_heuristic` is inverted relative to the other two
heuristics, contradicting the claimed "disabled always passes, enabled
applies the threshold" behavior in both directions. -/
theorem normal_similarity_flag_inverted :
    normal_similarity_heuristic exampleSettingsNormalOn ⟨0, 0, 1⟩ ⟨0, 0, -1⟩ (9 / 10)
        = true ∧
    Float3.dot ⟨0, 0, 1⟩ ⟨0, 0, -1⟩ ≤ 9 / 10 ∧
    normal_similarity_heuristic exampleSettings ⟨0, 0, 1⟩ ⟨1, 0, 0⟩ (9 / 10) = false ∧
    exampleSettingsNormalOn.use_normal_similarity_heuristic = true ∧
    exampleSettings.use_normal_similarity_heuristic = false := by
  refine ⟨rfl, by norm_num [Float3.dot], ?_, rfl, rfl⟩
  norm_num [normal_similarity_heuristic, exampleSettings, Float3.dot]

/-- C3: the reconnection-shift jacobian returns the ratio
`(cos_at_center / cos_at_neighbor) * (dist_neighbor^2 / dist_center^2)`
exactly when it lies in `[1/20, 20]` and `-1` otherwise; the division-
degenerate inputs (a zero neighbor cosine or a zero center distance, the
IEEE non-finite cases) always return `-1`. -/
theorem jacobian_clamped_to_ratio_band (rd : HIPRTRenderData)
    (nr : ReSTIRDIReservoir) (c n : Float3) (cc cn dc dn : ℚ)
    (hparts : jacobianParts rd nr c n = (cc, cn, dc, dn)) :
    (cn = 0 ∨ dc = 0 → get_jacobian_determinant_reconnection_shift rd nr c n = -1) ∧
    (get_jacobian_determinant_reconnection_shift rd nr c n =
      if 1 / 20 ≤ cc / cn * (dn * dn / (dc * dc)) ∧
          cc / cn * (dn * dn / (dc * dc)) ≤ 20 then
        cc / cn * (dn * dn / (dc * dc))
      else -1) := by
  have hbody : get_jacobian_determinant_reconnection_shift rd nr c n =
      if cc / cn * (dn * dn / (dc * dc)) > 20 ∨
          cc / cn * (dn * dn / (dc * dc)) < 1 / 20 then -1
      else cc / cn * (dn * dn / (dc * dc)) := by
    unfold get_jacobian_determinant_reconnection_shift
    rw [hparts]
  constructor
  · intro hz
    rw [hbody]
    have hzero : cc / cn * (dn * dn / (dc * dc)) = 0 := by
      rcases hz with h | h
      · rw [h] ; simp
      · rw [h] ; simp
    rw [if_pos]
    rw [hzero]
    right
    norm_num
  · rw [hbody]
    split_ifs with h1 h2 h2
    · rcases h1 with h | h <;> linarith [h2.1, h2.2]
    · rfl
    · rfl
    · push_neg at h1
      exact absurd ⟨h1.2, h1.1⟩ h2

/-- C3 witness: a unit-distance configuration whose computed ratio is `1`,
inside the band, so the jacobian is returned unchanged; its neighbor
cosine and center distance are nonzero and the computed parts match. -/
theorem jacobian_clamped_to_ratio_band_witness :
    jacobianParts exampleRD exampleReservoir ⟨0, 0, 0⟩ ⟨0, 0, 2⟩ = (1, 1, 1, 1) ∧
    get_jacobian_determinant_reconnection_shift exampleRD exampleReservoir
      ⟨0, 0, 0⟩ ⟨0, 0, 2⟩ = 1 := by
  have hp : jacobianParts exampleRD exampleReservoir ⟨0, 0, 0⟩ ⟨0, 0, 2⟩ = (1, 1, 1, 1) := by
    norm_num [jacobianParts, exampleRD, exampleReservoir, hipptLength, hipptNormalize,
      qabs, Float3.dot, Float3.sub, Float3.neg, Float3.divs, Prod.ext_iff]
  refine ⟨hp, ?_⟩
  have h := (jacobian_clamped_to_ratio_band exampleRD exampleReservoir
    ⟨0, 0, 0⟩ ⟨0, 0, 2⟩ 1 1 1 1 hp).2
  rw [h]
  norm_num

/-- C7 counterexample: the visibility logic re-run at the end of a
spatial pass, applied to a reservoir with `UCW = 5` in an everywhere-
occluded scene, traces a ray and sets `UCW` to `0` — not to a negative
sentinel value as the claim states. -/
theorem spatial_visibility_sets_zero_not_negative :
    (spatial_visibility_reuse exampleRDOccluded exampleReservoir ⟨0, 0, 0⟩).2 = 1 ∧
    (spatial_visibility_reuse exampleRDOccluded exampleReservoir ⟨0, 0, 0⟩).1.UCW = 0 ∧
    ¬ (spatial_visibility_reuse exampleRDOccluded exampleReservoir ⟨0, 0, 0⟩).1.UCW < 0 := by
  have h5 : exampleReservoir.UCW = 5 := rfl
  constructor
  · simp [spatial_visibility_reuse, exampleRDOccluded, exampleRD, h5]
  constructor
  · simp [spatial_visibility_reuse, exampleRDOccluded, exampleRD, h5]
  · simp [spatial_visibility_reuse, exampleRDOccluded, exampleRD, h5]

/-- C7 amended: the `ReSTIR_DI_visibility_reuse` pass operation acts only
when `UCW > 0`, traces exactly one shadow ray, on occlusion sets `UCW` to
the negative sentinel `-1` (distinct from the no-sample value `0`), and
leaves the sample, `weight_sum` and `M` unchanged; the
`spatial_visibility_reuse` logic re-run at the end of a spatial pass
instead acts whenever `UCW ≠ 0`, traces one shadow ray, and on occlusion
sets `UCW` to `0` (not a negative sentinel), also leaving the other
fields unchanged. -/
theorem visibility_reuse_passes_behavior :
    (∀ (rd : HIPRTRenderData) (r : ReSTIRDIReservoir) (p : Float3),
      r.UCW ≤ 0 → ReSTIR_DI_visibility_reuse rd r p = (r, 0)) ∧
    (∀ (rd : HIPRTRenderData) (r : ReSTIRDIReservoir) (p : Float3),
      0 < r.UCW →
      (ReSTIR_DI_visibility_reuse rd r p).2 = 1 ∧
      (ReSTIR_DI_visibility_reuse rd r p).1.UCW =
        (if visibilityReuseShadowQuery rd r p then -1 else r.UCW) ∧
      (ReSTIR_DI_visibility_reuse rd r p).1.sample = r.sample ∧
      (ReSTIR_DI_visibility_reuse rd r p).1.weight_sum = r.weight_sum ∧
      (ReSTIR_DI_visibility_reuse rd r p).1.M = r.M) ∧
    (∀ (rd : HIPRTRenderData) (r : ReSTIRDIReservoir) (p : Float3),
      r.UCW = 0 → spatial_visibility_reuse rd r p = (r, 0)) ∧
    (∀ (rd : HIPRTRenderData) (r : ReSTIRDIReservoir) (p : Float3),
      r.UCW ≠ 0 →
      (spatial_visibility_reuse rd r p).2 = 1 ∧
      (spatial_visibility_reuse rd r p).1.UCW =
        (if spatialVisibilityShadowQuery rd r p then 0 else r.UCW) ∧
      (spatial_visibility_reuse rd r p).1.sample = r.sample ∧
      (spatial_visibility_reuse rd r p).1.weight_sum = r.weight_sum ∧
      (spatial_visibility_reuse rd r p).1.M = r.M) := by
  refine ⟨?_, ?_, ?_, ?_⟩
  · intro rd r p h
    unfold ReSTIR_DI_visibility_reuse
    rw [if_pos h]
  · intro rd r p h
    have hn : ¬ r.UCW ≤ 0 := not_le.mpr h
    simp only [ReSTIR_DI_visibility_reuse, visibilityReuseShadowQuery, if_neg hn]
    split_ifs <;> exact ⟨rfl, rfl, rfl, rfl, rfl⟩
  · intro rd r p h
    unfold spatial_visibility_reuse
    rw [if_pos h]
  · intro rd r p h
    simp only [spatial_visibility_reuse, spatialVisibilityShadowQuery, if_neg h]
    split_ifs <;> exact ⟨rfl, rfl, rfl, rfl, rfl⟩

/-- C7 witness: the amended behavior applied at concrete inputs — the
pass operation on an unoccluded valid reservoir, and the spatial re-run
on an occluded reservoir carrying the `-1` sentinel (on which it still
acts, tracing a ray). -/
theorem visibility_reuse_passes_behavior_witness :
    ((ReSTIR_DI_visibility_reuse exampleRD exampleReservoir ⟨0, 0, 0⟩).2 = 1 ∧
      (ReSTIR_DI_visibility_reuse exampleRD exampleReservoir ⟨0, 0, 0⟩).1.UCW =
        (if visibilityReuseShadowQuery exampleRD exampleReservoir ⟨0, 0, 0⟩ then -1
          else exampleReservoir.UCW) ∧
      (ReSTIR_DI_visibility_reuse exampleRD exampleReservoir ⟨0, 0, 0⟩).1.sample =
        exampleReservoir.sample ∧
      (ReSTIR_DI_visibility_reuse exampleRD exampleReservoir ⟨0, 0, 0⟩).1.weight_sum =
        exampleReservoir.weight_sum ∧
      (ReSTIR_DI_visibility_reuse exampleRD exampleReservoir ⟨0, 0, 0⟩).1.M =
        exampleReservoir.M) ∧
    ((spatial_visibility_reuse exampleRDOccluded { exampleReservoir with UCW := -1 }
        ⟨0, 0, 0⟩).2 = 1 ∧
      (spatial_visibility_reuse exampleRDOccluded { exampleReservoir with UCW := -1 }
        ⟨0, 0, 0⟩).1.UCW =
        (if spatialVisibilityShadowQuery exampleRDOccluded
            { exampleReservoir with UCW := -1 } ⟨0, 0, 0⟩ then 0
          else ({ exampleReservoir with UCW := -1 } : ReSTIRDIReservoir).UCW) ∧
      (spatial_visibility_reuse exampleRDOccluded { exampleReservoir with UCW := -1 }
        ⟨0, 0, 0⟩).1.sample = exampleReservoir.sample ∧
      (spatial_visibility_reuse exampleRDOccluded { exampleReservoir with UCW := -1 }
        ⟨0, 0, 0⟩).1.weight_sum = exampleReservoir.weight_sum ∧
      (spatial_visibility_reuse exampleRDOccluded { exampleReservoir with UCW := -1 }
        ⟨0, 0, 0⟩).1.M = exampleReservoir.M) :=
  ⟨visibility_reuse_passes_behavior.2.1 exampleRD exampleReservoir ⟨0, 0, 0⟩
      (by norm_num [exampleReservoir]),
    visibility_reuse_passes_behavior.2.2.2 exampleRDOccluded
      { exampleReservoir with UCW := -1 } ⟨0, 0, 0⟩ (by norm_num)⟩

/-- C8: with a non-positive `weight_sum` on the final reservoir, both the
kernel's normalization routine and every template specialization of the
normalization strategy return `(1, 1)`, whatever the configured
bias-correction mode (the MIS-GBH specializations return `(1, 1)`
unconditionally). -/
theorem normalization_short_circuits_on_nonpositive_weight_sum
    (rd : HIPRTRenderData) (new_reservoir : ReSTIRDIReservoir)
    (surf : ReSTIRDISurface) (selected_neighbor reused_neighbors_count : ℕ)
    (coords res : Int2) (rot : Float2)
    (h : new_reservoir.weight_sum ≤ 0) :
    get_spatial_reuse_normalization_denominator_numerator rd new_reservoir
      selected_neighbor reused_neighbors_count coords res rot = (1, 1) ∧
    ReSTIRDISpatialNormalizationWeight_get_normalization rd new_reservoir surf
      selected_neighbor reused_neighbors_count coords res rot = (1, 1) := by
  constructor
  · unfold get_spatial_reuse_normalization_denominator_numerator
    rw [if_pos h]
  · cases hm : rd.kopts.biasCorrectionWeights <;>
      simp only [ReSTIRDISpatialNormalizationWeight_get_normalization, hm, if_pos h]

/-- C8 witness: the short-circuit at a concrete fresh reservoir (whose
`weight_sum` is `0`). -/
theorem normalization_short_circuits_witness :
    get_spatial_reuse_normalization_denominator_numerator exampleRD
      ReSTIRDIReservoir.init 0 1 ⟨0, 0⟩ ⟨4, 4⟩ ⟨1, 0⟩ = (1, 1) ∧
    ReSTIRDISpatialNormalizationWeight_get_normalization exampleRD
      ReSTIRDIReservoir.init exampleSurface 0 1 ⟨0, 0⟩ ⟨4, 4⟩ ⟨1, 0⟩ = (1, 1) :=
  normalization_short_circuits_on_nonpositive_weight_sum exampleRD
    ReSTIRDIReservoir.init exampleSurface 0 1 ⟨0, 0⟩ ⟨4, 4⟩ ⟨1, 0⟩
    (by norm_num [ReSTIRDIReservoir.init])

theorem end_normalized_M (r : ReSTIRDIReservoir) (nume denom : ℚ) :
    (r.end_normalized nume denom).M = r.M := by
  unfold ReSTIRDIReservoir.end_normalized
  split_ifs <;> rfl

theorem spatial_visibility_reuse_M (rd : HIPRTRenderData) (r : ReSTIRDIReservoir)
    (p : Float3) : (spatial_visibility_reuse rd r p).1.M = r.M := by
  simp only [spatial_visibility_reuse]
  split_ifs <;> rfl

theorem spatialReuseLoop_M (rd : HIPRTRenderData) (surf : ReSTIRDISurface)
    (cnt : ℕ) (coords res : Int2) (rot : Float2) (rng : Xorshift32Generator) :
    (spatialReuseLoop rd surf cnt coords res rot rng).reservoir.M =
      sumAdmittedM rd cnt coords res rot := by
  have key : ∀ (l : List ℕ) (st : SpatialLoopState),
      ((l.foldl (spatialReuseStep rd surf cnt coords res rot) st).reservoir.M)
        = st.reservoir.M + (l.map (fun j =>
            if get_neighbor_pixel_index rd j cnt
                rd.render_settings.restir_di_settings.spatial_pass.spatial_reuse_radius
                coords res rot = -1 then 0
            else (rd.render_settings.restir_di_settings.spatial_pass.input_reservoirs
              (get_neighbor_pixel_index rd j cnt
                rd.render_settings.restir_di_settings.spatial_pass.spatial_reuse_radius
                coords res rot)).M)).sum := by
    intro l
    induction l with
    | nil => intro st; simp
    | cons j t ih =>
      intro st
      simp only [List.foldl_cons, List.map_cons, List.sum_cons]
      rw [ih, spatialReuseStep_M]
      omega
  unfold spatialReuseLoop sumAdmittedM
  rw [key]
  simp [ReSTIRDIReservoir.init]

/-- C4: the spatial-reuse combine loop accumulates, as the output
reservoir's `M` before capping, exactly the sum of the `M` values of the
admitted (non-invalid) neighbors it visits — a natural number, hence
never negative — and whenever the configured `m_cap` is positive the `M`
value the kernel writes out is at most `m_cap`. -/
theorem spatial_M_sum_and_cap :
    (∀ (rd : HIPRTRenderData) (surf : ReSTIRDISurface) (cnt : ℕ) (coords res : Int2)
      (rot : Float2) (rng : Xorshift32Generator),
      (spatialReuseLoop rd surf cnt coords res rot rng).reservoir.M
          = sumAdmittedM rd cnt coords res rot ∧
      0 ≤ (spatialReuseLoop rd surf cnt coords res rot rng).reservoir.M) ∧
    (∀ (rd : HIPRTRenderData) (res : Int2) (x y : ℕ),
      0 < rd.render_settings.restir_di_settings.m_cap →
      ReSTIR_DI_SpatialReuse rd res x y = none ∨
      ∃ r, ReSTIR_DI_SpatialReuse rd res x y = some r ∧
        r.M ≤ rd.render_settings.restir_di_settings.m_cap) := by
  constructor
  · intro rd surf cnt coords res rot rng
    exact ⟨spatialReuseLoop_M rd surf cnt coords res rot rng, Nat.zero_le _⟩
  · intro rd res x y hcap
    simp only [ReSTIR_DI_SpatialReuse]
    split_ifs <;>
      first
        | exact Or.inl rfl
        | exact absurd hcap (by assumption)
        | (refine Or.inr ⟨_, rfl, ?_⟩
           try rw [spatial_visibility_reuse_M]
           exact Nat.min_le_left _ _)

/-- C4 witness: the capping part applied at a concrete configuration
whose `m_cap` is `3`. -/
theorem spatial_M_sum_and_cap_witness :
    ReSTIR_DI_SpatialReuse exampleRD ⟨4, 4⟩ 1 1 = none ∨
    ∃ r, ReSTIR_DI_SpatialReuse exampleRD ⟨4, 4⟩ 1 1 = some r ∧
      r.M ≤ exampleRD.render_settings.restir_di_settings.m_cap :=
  spatial_M_sum_and_cap.2 exampleRD ⟨4, 4⟩ 1 1
    (by norm_num [exampleRD, exampleSettings])

/-- C5: for every neighbor ordinal, rotation, radius and in-viewport
center pixel, both spatial neighbor index functions return either the
`-1` invalid sentinel or a linear index that decodes to coordinates
inside `[0,width) x [0,height)`. -/
theorem spatial_neighbor_index_in_viewport (rd : HIPRTRenderData)
    (n cnt : ℕ) (radius : ℤ) (coords res : Int2) (rot : Float2)
    (rngc : Xorshift32Generator)
    (hx0 : 0 ≤ coords.x) (hx1 : coords.x < res.x)
    (hy0 : 0 ≤ coords.y) (hy1 : coords.y < res.y) :
    (get_neighbor_pixel_index rd n cnt radius coords res rot = -1 ∨
      ∃ px py, 0 ≤ px ∧ px < res.x ∧ 0 ≤ py ∧ py < res.y ∧
        get_neighbor_pixel_index rd n cnt radius coords res rot = px + py * res.x) ∧
    (get_spatial_neighbor_pixel_index rd n cnt radius coords res rot rngc = -1 ∨
      ∃ px py, 0 ≤ px ∧ px < res.x ∧ 0 ≤ py ∧ py < res.y ∧
        get_spatial_neighbor_pixel_index rd n cnt radius coords res rot rngc
          = px + py * res.x) := by
  constructor
  · by_cases hn : n = cnt
    · simp only [get_neighbor_pixel_index, if_pos hn]
      exact Or.inr ⟨coords.x, coords.y, hx0, hx1, hy0, hy1, rfl⟩
    · simp only [get_neighbor_pixel_index, if_neg hn]
      split_ifs with hout
      · exact Or.inl rfl
      · push_neg at hout
        exact Or.inr ⟨_, _, hout.1, hout.2.1, hout.2.2.1, hout.2.2.2, rfl⟩
  · by_cases hn : n = cnt
    · simp only [get_spatial_neighbor_pixel_index, if_pos hn]
      exact Or.inr ⟨coords.x, coords.y, hx0, hx1, hy0, hy1, rfl⟩
    · simp only [get_spatial_neighbor_pixel_index, if_neg hn]
      split_ifs <;>
        first
          | exact Or.inl rfl
          | (right
             refine ⟨_, _, ?_, ?_, ?_, ?_, rfl⟩ <;> omega)

/-- C5 witness: concrete in-viewport center pixel. -/
theorem spatial_neighbor_index_in_viewport_witness :
    (get_neighbor_pixel_index exampleRD 0 1 2 ⟨1, 1⟩ ⟨4, 4⟩ ⟨1, 0⟩ = -1 ∨
      ∃ px py, 0 ≤ px ∧ px < (4 : ℤ) ∧ 0 ≤ py ∧ py < (4 : ℤ) ∧
        get_neighbor_pixel_index exampleRD 0 1 2 ⟨1, 1⟩ ⟨4, 4⟩ ⟨1, 0⟩ = px + py * 4) ∧
    (get_spatial_neighbor_pixel_index exampleRD 0 1 2 ⟨1, 1⟩ ⟨4, 4⟩ ⟨1, 0⟩
        ⟨fun _ => 1 / 2, 0⟩ = -1 ∨
      ∃ px py, 0 ≤ px ∧ px < (4 : ℤ) ∧ 0 ≤ py ∧ py < (4 : ℤ) ∧
        get_spatial_neighbor_pixel_index exampleRD 0 1 2 ⟨1, 1⟩ ⟨4, 4⟩ ⟨1, 0⟩
          ⟨fun _ => 1 / 2, 0⟩ = px + py * 4) :=
  spatial_neighbor_index_in_viewport exampleRD 0 1 2 ⟨1, 1⟩ ⟨4, 4⟩ ⟨1, 0⟩
    ⟨fun _ => 1 / 2, 0⟩ (by norm_num) (by norm_num) (by norm_num) (by norm_num)

theorem colorMul_nonneg {a b : ColorRGB32F} (ha : a.Nonneg) (hb : b.Nonneg) :
    (a.mul b).Nonneg :=
  ⟨mul_nonneg ha.1 hb.1, mul_nonneg ha.2.1 hb.2.1, mul_nonneg ha.2.2 hb.2.2⟩

theorem colorSmul_nonneg {a : ColorRGB32F} {s : ℚ} (ha : a.Nonneg) (hs : 0 ≤ s) :
    (a.smul s).Nonneg :=
  ⟨mul_nonneg ha.1 hs, mul_nonneg ha.2.1 hs, mul_nonneg ha.2.2 hs⟩

theorem luminance_nonneg {a : ColorRGB32F} (ha : a.Nonneg) : 0 ≤ a.luminance := by
  unfold ColorRGB32F.luminance
  have h1 : (0 : ℚ) ≤ (2126 / 10000) * a.r := mul_nonneg (by norm_num) ha.1
  have h2 : (0 : ℚ) ≤ (7152 / 10000) * a.g := mul_nonneg (by norm_num) ha.2.1
  have h3 : (0 : ℚ) ≤ (722 / 10000) * a.b := mul_nonneg (by norm_num) ha.2.2
  linarith

theorem qmax_zero_nonneg (x : ℚ) : 0 ≤ qmax 0 x := by
  unfold qmax
  split_ifs with h
  · linarith
  · linarith

theorem qmax_zero_of_nonpos {x : ℚ} (h : x ≤ 0) : qmax 0 x = 0 := by
  unfold qmax
  rw [if_neg (not_lt.mpr h)]

theorem targetFnEmission_nonneg (rd : HIPRTRenderData) (s : ReSTIRDISample)
    (d : Float3) (hm : ∀ i, (rd.materials_buffer i).emission.Nonneg)
    (he : ∀ v, (rd.envmap_eval v).Nonneg) : (targetFnEmission rd s d).Nonneg := by
  unfold targetFnEmission
  split_ifs
  · exact he d
  · exact hm _

theorem targetFn_novis_nonneg (rd : HIPRTRenderData) (s : ReSTIRDISample)
    (surf : ReSTIRDISurface)
    (hb : ∀ m v vd nrm d, (rd.bsdf_eval m v vd nrm d).Nonneg)
    (hm : ∀ i, (rd.materials_buffer i).emission.Nonneg)
    (he : ∀ v, (rd.envmap_eval v).Nonneg) :
    0 ≤ ReSTIR_DI_evaluate_target_function_novis rd s surf := by
  unfold ReSTIR_DI_evaluate_target_function_novis
  have key := luminance_nonneg (colorSmul_nonneg
    (colorMul_nonneg (hb surf.material surf.ray_volume_state surf.view_direction
      surf.shading_normal (targetFnSampleDirection rd s surf))
      (targetFnEmission_nonneg rd s (targetFnSampleDirection rd s surf) hm he))
    (qmax_zero_nonneg (surf.shading_normal.dot (targetFnSampleDirection rd s surf))))
  split_ifs with hA
  · norm_num
  · by_cases hB : qmax 0 (surf.shading_normal.dot (targetFnSampleDirection rd s surf)) = 0
    · rw [if_pos hB]
    · rw [if_neg hB]
      by_cases hC : (((rd.bsdf_eval surf.material surf.ray_volume_state
          surf.view_direction surf.shading_normal
          (targetFnSampleDirection rd s surf)).mul
          (targetFnEmission rd s (targetFnSampleDirection rd s surf))).smul
          (qmax 0 (surf.shading_normal.dot
            (targetFnSampleDirection rd s surf)))).luminance = 0
      · rw [if_pos hC]
      · rw [if_neg hC]
        exact key

/-- The two evaluators agree case by case: either both short-circuit to a
zero score without tracing, or the non-visibility score is nonzero and
the visibility-aware evaluator traces a shadow ray and scales that score
by the occlusion outcome. -/
theorem targetFn_vis_novis_cases (rd : HIPRTRenderData) (s : ReSTIRDISample)
    (surf : ReSTIRDISurface) :
    (ReSTIR_DI_evaluate_target_function_novis rd s surf = 0 ∧
      ReSTIR_DI_evaluate_target_function_vis rd s surf = (0, false)) ∨
    (ReSTIR_DI_evaluate_target_function_novis rd s surf ≠ 0 ∧
      ReSTIR_DI_evaluate_target_function_vis rd s surf =
        (ReSTIR_DI_evaluate_target_function_novis rd s surf *
          (if targetFnShadowQuery rd s surf then 0 else 1), true)) := by
  unfold ReSTIR_DI_evaluate_target_function_novis ReSTIR_DI_evaluate_target_function_vis
    targetFnShadowQuery
  by_cases h1 : s.emissive_triangle_index = -1 ∧ ¬ s.flags.envmap_sample = true
  · left
    rw [if_pos h1, if_pos h1]
    exact ⟨rfl, rfl⟩
  · rw [if_neg h1, if_neg h1]
    by_cases h2 : qmax 0 (surf.shading_normal.dot (targetFnSampleDirection rd s surf)) = 0
    · left
      simp [h2]
    · by_cases h3 : (((rd.bsdf_eval surf.material surf.ray_volume_state
          surf.view_direction surf.shading_normal
          (targetFnSampleDirection rd s surf)).mul
          (targetFnEmission rd s (targetFnSampleDirection rd s surf))).smul
          (qmax 0 (surf.shading_normal.dot
            (targetFnSampleDirection rd s surf)))).luminance = 0
      · left
        simp [h2, h3]
      · right
        simp [h2, h3]

/-- C6: the target-function evaluator scores 0 for a sample that encodes
neither an emissive triangle nor an environment-map sample, and 0 when
the cosine with the shading normal is non-positive; with visibility
requested the shadow ray is traced exactly when the non-visibility score
is nonzero, the returned value is the non-visibility score times 0 when
occluded and times 1 otherwise, and — under the physical non-negativity
of the external BSDF, emission and environment colors — the result is
always non-negative. -/
theorem target_function_evaluator_contract (rd : HIPRTRenderData)
    (s : ReSTIRDISample) (surf : ReSTIRDISurface)
    (hb : ∀ m v vd nrm d, (rd.bsdf_eval m v vd nrm d).Nonneg)
    (hm : ∀ i, (rd.materials_buffer i).emission.Nonneg)
    (he : ∀ v, (rd.envmap_eval v).Nonneg) :
    (s.emissive_triangle_index = -1 ∧ s.flags.envmap_sample = false →
      ReSTIR_DI_evaluate_target_function_vis rd s surf = (0, false) ∧
      ReSTIR_DI_evaluate_target_function_novis rd s surf = 0) ∧
    (surf.shading_normal.dot (targetFnSampleDirection rd s surf) ≤ 0 →
      (ReSTIR_DI_evaluate_target_function_vis rd s surf).1 = 0 ∧
      (ReSTIR_DI_evaluate_target_function_vis rd s surf).2 = false) ∧
    ((ReSTIR_DI_evaluate_target_function_vis rd s surf).2 = true →
      ReSTIR_DI_evaluate_target_function_novis rd s surf ≠ 0) ∧
    ((ReSTIR_DI_evaluate_target_function_vis rd s surf).1 =
      ReSTIR_DI_evaluate_target_function_novis rd s surf *
        (if (ReSTIR_DI_evaluate_target_function_vis rd s surf).2 = true ∧
            targetFnShadowQuery rd s surf = true then 0 else 1)) ∧
    (0 ≤ (ReSTIR_DI_evaluate_target_function_vis rd s surf).1) := by
  refine ⟨?_, ?_, ?_, ?_, ?_⟩
  · intro h
    have h1 : s.emissive_triangle_index = -1 ∧ ¬ s.flags.envmap_sample = true := by
      refine ⟨h.1, ?_⟩
      rw [h.2]
      simp
    unfold ReSTIR_DI_evaluate_target_function_vis ReSTIR_DI_evaluate_target_function_novis
    rw [if_pos h1, if_pos h1]
    exact ⟨rfl, rfl⟩
  · intro h
    have h2 : qmax 0 (surf.shading_normal.dot (targetFnSampleDirection rd s surf)) = 0 :=
      qmax_zero_of_nonpos h
    unfold ReSTIR_DI_evaluate_target_function_vis
    by_cases h1 : s.emissive_triangle_index = -1 ∧ ¬ s.flags.envmap_sample = true
    · rw [if_pos h1]
      exact ⟨rfl, rfl⟩
    · rw [if_neg h1]
      simp [h2]
  · intro h
    rcases targetFn_vis_novis_cases rd s surf with ⟨_, hv⟩ | ⟨hnz, _⟩
    · rw [hv] at h
      simp at h
    · exact hnz
  · rcases targetFn_vis_novis_cases rd s surf with ⟨hn, hv⟩ | ⟨_, hv⟩
    · rw [hv, hn]
      simp
    · rw [hv]
      by_cases hq : targetFnShadowQuery rd s surf = true <;> simp [hq]
  · rcases targetFn_vis_novis_cases rd s surf with ⟨_, hv⟩ | ⟨_, hv⟩
    · rw [hv]
    · rw [hv]
      refine mul_nonneg (targetFn_novis_nonneg rd s surf hb hm he) ?_
      split_ifs <;> norm_num

/-- C6 witness: applied at the concrete environment — a valid emissive
sample yields a non-negative score, and the sample with neither an
emissive triangle nor the environment-map flag scores `(0, false)`. -/
theorem target_function_evaluator_contract_witness :
    (0 ≤ (ReSTIR_DI_evaluate_target_function_vis exampleRD exampleReservoir.sample
      exampleSurface).1) ∧
    (ReSTIR_DI_evaluate_target_function_vis exampleRD exampleInvalidSample
      exampleSurface = (0, false) ∧
    ReSTIR_DI_evaluate_target_function_novis exampleRD exampleInvalidSample
      exampleSurface = 0) := by
  have hb : ∀ m v vd nrm d, (exampleRD.bsdf_eval m v vd nrm d).Nonneg := by
    intro m v vd nrm d
    norm_num [exampleRD, ColorRGB32F.Nonneg]
  have hm : ∀ i, (exampleRD.materials_buffer i).emission.Nonneg := by
    intro i
    norm_num [exampleRD, ColorRGB32F.Nonneg]
  have he : ∀ v, (exampleRD.envmap_eval v).Nonneg := by
    intro v
    norm_num [exampleRD, ColorRGB32F.Nonneg]
  refine ⟨(target_function_evaluator_contract exampleRD exampleReservoir.sample
      exampleSurface hb hm he).2.2.2.2, ?_⟩
  exact (target_function_evaluator_contract exampleRD exampleInvalidSample
      exampleSurface hb hm he).1 ⟨rfl, rfl⟩

theorem temporalProbeAdmitted_iff (rd : HIPRTRenderData) (resolution : Int2)
    (cidx : ℤ) (sp nrm : Float3) (prev : Float2) (rng : Xorshift32Generator)
    (i : ℕ) :
    temporalProbeAdmitted rd resolution cidx sp nrm prev rng i = true ↔
      (¬ ((temporalProbePos rd prev rng i).x < 0 ∨
          (temporalProbePos rd prev rng i).x ≥ resolution.x ∨
          (temporalProbePos rd prev rng i).y < 0 ∨
          (temporalProbePos rd prev rng i).y ≥ resolution.y) ∧
        check_neighbor_similarity_heuristics rd
          ((temporalProbePos rd prev rng i).x +
            (temporalProbePos rd prev rng i).y * resolution.x) cidx sp nrm = true) := by
  simp only [temporalProbeAdmitted, Bool.and_eq_true, decide_eq_true_eq]
  constructor
  · rintro ⟨⟨⟨⟨h1, h2⟩, h3⟩, h4⟩, h5⟩
    exact ⟨by omega, h5⟩
  · rintro ⟨hno, h5⟩
    refine ⟨⟨⟨⟨?_, ?_⟩, ?_⟩, ?_⟩, h5⟩ <;> omega

theorem find_temporal_neighbor_go_find? (rd : HIPRTRenderData)
    (resolution : Int2) (cidx : ℤ) (sp nrm : Float3) (prev : Float2)
    (rng : Xorshift32Generator) :
    ∀ (fuel i : ℕ), 1 ≤ i →
      find_temporal_neighbor_go rd resolution cidx sp nrm prev i fuel
          ⟨rng.seq, rng.idx + 2 * (i - 1)⟩ =
        match (List.range' i fuel).find? (fun j =>
            temporalProbeAdmitted rd resolution cidx sp nrm prev rng j) with
        | some j => (temporalProbePos rd prev rng j).x +
            (temporalProbePos rd prev rng j).y * resolution.x
        | none => -1 := by
  intro fuel
  induction fuel with
  | zero => intro i hi; rfl
  | succ f ih =>
    intro i hi
    have hoff : temporalProbeOffset rd rng i =
        ⟨(rng.seq (rng.idx + 2 * (i - 1)) - 1 / 2) *
            rd.render_settings.restir_di_settings.temporal_pass.neighbor_search_radius,
          (rng.seq (rng.idx + 2 * (i - 1) + 1) - 1 / 2) *
            rd.render_settings.restir_di_settings.temporal_pass.neighbor_search_radius⟩ := by
      simp [temporalProbeOffset, show ¬ i = 0 by omega]
    have hpos : temporalProbePos rd prev rng i =
        ⟨cround (prev.x + (rng.seq (rng.idx + 2 * (i - 1)) - 1 / 2) *
            rd.render_settings.restir_di_settings.temporal_pass.neighbor_search_radius),
          cround (prev.y + (rng.seq (rng.idx + 2 * (i - 1) + 1) - 1 / 2) *
            rd.render_settings.restir_di_settings.temporal_pass.neighbor_search_radius)⟩ := by
      simp [temporalProbePos, hoff]
    have hgen : (⟨rng.seq, rng.idx + 2 * (i - 1) + 1 + 1⟩ : Xorshift32Generator) =
        ⟨rng.seq, rng.idx + 2 * (i + 1 - 1)⟩ := by
      have harith : rng.idx + 2 * (i - 1) + 1 + 1 = rng.idx + 2 * (i + 1 - 1) := by omega
      rw [harith]
    have hposx : (temporalProbePos rd prev rng i).x =
        cround (prev.x + (rng.seq (rng.idx + 2 * (i - 1)) - 1 / 2) *
          rd.render_settings.restir_di_settings.temporal_pass.neighbor_search_radius) := by
      rw [hpos]
    have hposy : (temporalProbePos rd prev rng i).y =
        cround (prev.y + (rng.seq (rng.idx + 2 * (i - 1) + 1) - 1 / 2) *
          rd.render_settings.restir_di_settings.temporal_pass.neighbor_search_radius) := by
      rw [hpos]
    simp only [find_temporal_neighbor_go, Xorshift32Generator.next]
    rw [if_pos (show 0 < i from hi)]
    simp only []
    rw [← hposx, ← hposy]
    by_cases hin : (temporalProbePos rd prev rng i).x < 0 ∨
        (temporalProbePos rd prev rng i).x ≥ resolution.x ∨
        (temporalProbePos rd prev rng i).y < 0 ∨
        (temporalProbePos rd prev rng i).y ≥ resolution.y
    · have hadm : temporalProbeAdmitted rd resolution cidx sp nrm prev rng i = false :=
        Bool.eq_false_iff.mpr (fun h =>
          ((temporalProbeAdmitted_iff rd resolution cidx sp nrm prev rng i).mp h).1 hin)
      rw [if_pos hin, hgen, ih (i + 1) (by omega), List.range'_succ, List.find?_cons]
      simp only [hadm]
    · rw [if_neg hin]
      by_cases hh : check_neighbor_similarity_heuristics rd
          ((temporalProbePos rd prev rng i).x +
            (temporalProbePos rd prev rng i).y * resolution.x) cidx sp nrm = true
      · have hadm : temporalProbeAdmitted rd resolution cidx sp nrm prev rng i = true :=
          (temporalProbeAdmitted_iff rd resolution cidx sp nrm prev rng i).mpr ⟨hin, hh⟩
        rw [if_pos hh, List.range'_succ, List.find?_cons]
        simp only [hadm]
      · have hadm : temporalProbeAdmitted rd resolution cidx sp nrm prev rng i = false :=
          Bool.eq_false_iff.mpr (fun h => hh
            ((temporalProbeAdmitted_iff rd resolution cidx sp nrm prev rng i).mp h).2)
        rw [if_neg hh, hgen, ih (i + 1) (by omega), List.range'_succ, List.find?_cons]
        simp only [hadm]

/-- C9: the temporal neighbor search probes the exactly-reprojected pixel
first (its jitter offset is zero), then at most `max_search_count`
further randomly-jittered probes, and returns the linear index of the
first probe that is inside the viewport and passes the similarity
heuristics, or `-1` when no probe is admitted; when the generator's
stream stays in `[0,1]` and the configured radius is non-negative, every
jitter offset component is bounded by the radius. -/
theorem temporal_search_returns_first_admitted_probe (rd : HIPRTRenderData)
    (sp nrm : Float3) (resolution coords : Int2) (cidx : ℤ) (rough : ℚ)
    (rng : Xorshift32Generator) :
    temporalProbeOffset rd rng 0 = ⟨0, 0⟩ ∧
    (find_temporal_neighbor_index rd sp nrm resolution coords cidx rough rng =
      match (List.range
          (rd.render_settings.restir_di_settings.temporal_pass.max_neighbor_search_count
            + 1)).find? (fun i => temporalProbeAdmitted rd resolution cidx sp nrm
            (temporalReprojectedPixel rd sp resolution) rng i) with
      | some i =>
          (temporalProbePos rd (temporalReprojectedPixel rd sp resolution) rng i).x +
            (temporalProbePos rd (temporalReprojectedPixel rd sp resolution) rng i).y
              * resolution.x
      | none => -1) ∧
    ((∀ k, 0 ≤ rng.seq k ∧ rng.seq k ≤ 1) →
      0 ≤ rd.render_settings.restir_di_settings.temporal_pass.neighbor_search_radius →
      ∀ i, qabs (temporalProbeOffset rd rng i).x ≤
          rd.render_settings.restir_di_settings.temporal_pass.neighbor_search_radius ∧
        qabs (temporalProbeOffset rd rng i).y ≤
          rd.render_settings.restir_di_settings.temporal_pass.neighbor_search_radius) := by
  refine ⟨by simp [temporalProbeOffset], ?_, ?_⟩
  · have hposx0 : (temporalProbePos rd (temporalReprojectedPixel rd sp resolution)
        rng 0).x = cround ((temporalReprojectedPixel rd sp resolution).x) := by
      simp [temporalProbePos, temporalProbeOffset]
    have hposy0 : (temporalProbePos rd (temporalReprojectedPixel rd sp resolution)
        rng 0).y = cround ((temporalReprojectedPixel rd sp resolution).y) := by
      simp [temporalProbePos, temporalProbeOffset]
    have hrng : (⟨rng.seq, rng.idx + 2 * (1 - 1)⟩ : Xorshift32Generator) = rng := rfl
    have h1 := find_temporal_neighbor_go_find? rd resolution cidx sp nrm
      (temporalReprojectedPixel rd sp resolution) rng
      rd.render_settings.restir_di_settings.temporal_pass.max_neighbor_search_count
      1 (le_refl 1)
    rw [hrng] at h1
    simp only [find_temporal_neighbor_index, find_temporal_neighbor_go,
      Xorshift32Generator.next]
    rw [if_neg (Nat.lt_irrefl 0)]
    simp only [add_zero]
    rw [← hposx0, ← hposy0, List.range_eq_range', List.range'_succ, List.find?_cons]
    by_cases hin : (temporalProbePos rd (temporalReprojectedPixel rd sp resolution)
          rng 0).x < 0 ∨
        (temporalProbePos rd (temporalReprojectedPixel rd sp resolution) rng 0).x
          ≥ resolution.x ∨
        (temporalProbePos rd (temporalReprojectedPixel rd sp resolution) rng 0).y < 0 ∨
        (temporalProbePos rd (temporalReprojectedPixel rd sp resolution) rng 0).y
          ≥ resolution.y
    · have hadm : temporalProbeAdmitted rd resolution cidx sp nrm
          (temporalReprojectedPixel rd sp resolution) rng 0 = false :=
        Bool.eq_false_iff.mpr (fun h =>
          ((temporalProbeAdmitted_iff rd resolution cidx sp nrm
            (temporalReprojectedPixel rd sp resolution) rng 0).mp h).1 hin)
      rw [if_pos hin, h1]
      simp only [hadm]
    · rw [if_neg hin]
      by_cases hh : check_neighbor_similarity_heuristics rd
          ((temporalProbePos rd (temporalReprojectedPixel rd sp resolution) rng 0).x +
            (temporalProbePos rd (temporalReprojectedPixel rd sp resolution) rng 0).y
              * resolution.x) cidx sp nrm = true
      · have hadm : temporalProbeAdmitted rd resolution cidx sp nrm
            (temporalReprojectedPixel rd sp resolution) rng 0 = true :=
          (temporalProbeAdmitted_iff rd resolution cidx sp nrm
            (temporalReprojectedPixel rd sp resolution) rng 0).mpr ⟨hin, hh⟩
        rw [if_pos hh]
        simp only [hadm]
      · have hadm : temporalProbeAdmitted rd resolution cidx sp nrm
            (temporalReprojectedPixel rd sp resolution) rng 0 = false :=
          Bool.eq_false_iff.mpr (fun h => hh
            ((temporalProbeAdmitted_iff rd resolution cidx sp nrm
              (temporalReprojectedPixel rd sp resolution) rng 0).mp h).2)
        rw [if_neg hh, h1]
        simp only [hadm]
  · intro hu hr i
    by_cases h0 : i = 0
    · subst h0
      constructor <;> simp [temporalProbeOffset, qabs, hr]
    · have hx := hu (rng.idx + 2 * (i - 1))
      have hy := hu (rng.idx + 2 * (i - 1) + 1)
      have hbound : ∀ u : ℚ, 0 ≤ u → u ≤ 1 → qabs ((u - 1 / 2) *
          rd.render_settings.restir_di_settings.temporal_pass.neighbor_search_radius) ≤
          rd.render_settings.restir_di_settings.temporal_pass.neighbor_search_radius := by
        intro u hu0 hu1
        unfold qabs
        split_ifs with hneg
        · nlinarith
        · nlinarith
      constructor
      · have : (temporalProbeOffset rd rng i).x = (rng.seq (rng.idx + 2 * (i - 1)) - 1 / 2) *
            rd.render_settings.restir_di_settings.temporal_pass.neighbor_search_radius := by
          simp [temporalProbeOffset, h0]
        rw [this]
        exact hbound _ hx.1 hx.2
      · have : (temporalProbeOffset rd rng i).y =
            (rng.seq (rng.idx + 2 * (i - 1) + 1) - 1 / 2) *
            rd.render_settings.restir_di_settings.temporal_pass.neighbor_search_radius := by
          simp [temporalProbeOffset, h0]
        rw [this]
        exact hbound _ hy.1 hy.2

/-- C9 witness: the jitter-bound part applied at a concrete generator
whose stream is constantly `1/2` and the configured radius `4`. -/
theorem temporal_search_returns_first_admitted_probe_witness :
    qabs (temporalProbeOffset exampleRD ⟨fun _ => 1 / 2, 0⟩ 1).x ≤
      exampleRD.render_settings.restir_di_settings.temporal_pass.neighbor_search_radius ∧
    qabs (temporalProbeOffset exampleRD ⟨fun _ => 1 / 2, 0⟩ 1).y ≤
      exampleRD.render_settings.restir_di_settings.temporal_pass.neighbor_search_radius :=
  (temporal_search_returns_first_admitted_probe exampleRD ⟨0, 0, 0⟩ ⟨0, 0, 1⟩
    ⟨4, 4⟩ ⟨0, 0⟩ 0 0 ⟨fun _ => 1 / 2, 0⟩).2.2
    (fun _ => ⟨by norm_num, by norm_num⟩)
    (by norm_num [exampleRD, exampleSettings]) 1

theorem targetFn_nonneg (b : Bool) (rd : HIPRTRenderData) (s : ReSTIRDISample)
    (surf : ReSTIRDISurface)
    (hb : ∀ m v vd nrm d, (rd.bsdf_eval m v vd nrm d).Nonneg)
    (hm : ∀ i, (rd.materials_buffer i).emission.Nonneg)
    (he : ∀ v, (rd.envmap_eval v).Nonneg) :
    0 ≤ ReSTIR_DI_evaluate_target_function b rd s surf := by
  unfold ReSTIR_DI_evaluate_target_function
  split_ifs
  · rcases targetFn_vis_novis_cases rd s surf with ⟨_, hv⟩ | ⟨_, hv⟩
    · rw [hv]
    · rw [hv]
      refine mul_nonneg (targetFn_novis_nonneg rd s surf hb hm he) ?_
      split_ifs <;> norm_num
  · exact targetFn_novis_nonneg rd s surf hb hm he

/-- C10: the generalized-balance-heuristic resampling MIS weight is
division-safe and bounded: in the MIS-GBH modes the function returns `0`
when the accumulated denominator is `0` and `nume/denom` otherwise, and —
since the numerator is one of the non-negative target-function-times-M
terms summed into the denominator — `0 ≤ nume`, `nume ≤ denom`, and the
returned weight lies in `[0, 1]`. -/
theorem gbh_resampling_weight_in_unit_interval (rd : HIPRTRenderData)
    (nr : ReSTIRDIReservoir) (cur cnt : ℕ) (coords res : Int2) (rot : Float2)
    (hb : ∀ m v vd nrm d, (rd.bsdf_eval m v vd nrm d).Nonneg)
    (hm : ∀ i, (rd.materials_buffer i).emission.Nonneg)
    (he : ∀ v, (rd.envmap_eval v).Nonneg) :
    (rd.kopts.biasCorrectionWeights = BiasCorrectionMode.misGBH ∨
      rd.kopts.biasCorrectionWeights = BiasCorrectionMode.misGBHConfidence →
      get_spatial_reuse_resampling_MIS_weight rd nr cur cnt coords res rot =
        (if (gbh_nume_denom rd nr cur cnt coords res rot).2 = 0 then 0
          else (gbh_nume_denom rd nr cur cnt coords res rot).1 /
            (gbh_nume_denom rd nr cur cnt coords res rot).2)) ∧
    0 ≤ (gbh_nume_denom rd nr cur cnt coords res rot).1 ∧
    (gbh_nume_denom rd nr cur cnt coords res rot).1 ≤
      (gbh_nume_denom rd nr cur cnt coords res rot).2 ∧
    0 ≤ (if (gbh_nume_denom rd nr cur cnt coords res rot).2 = 0 then 0
      else (gbh_nume_denom rd nr cur cnt coords res rot).1 /
        (gbh_nume_denom rd nr cur cnt coords res rot).2) ∧
    (if (gbh_nume_denom rd nr cur cnt coords res rot).2 = 0 then 0
      else (gbh_nume_denom rd nr cur cnt coords res rot).1 /
        (gbh_nume_denom rd nr cur cnt coords res rot).2) ≤ 1 := by
  have hstep : ∀ (nd : ℚ × ℚ) (j : ℕ), 0 ≤ nd.1 → nd.1 ≤ nd.2 →
      0 ≤ (gbh_step rd nr cur cnt coords res rot nd j).1 ∧
      (gbh_step rd nr cur cnt coords res rot nd j).1 ≤
        (gbh_step rd nr cur cnt coords res rot nd j).2 := by
    intro nd j h1 h2
    have hd2 : 0 ≤ nd.2 := le_trans h1 h2
    simp only [gbh_step]
    by_cases hidx : get_neighbor_pixel_index rd j cnt
        rd.render_settings.restir_di_settings.spatial_pass.spatial_reuse_radius
        coords res rot = -1
    · rw [if_pos hidx]
      exact ⟨h1, h2⟩
    · rw [if_neg hidx]
      have htf : 0 ≤ ReSTIR_DI_evaluate_target_function
          rd.kopts.spatialReuseBiasUseVisibility rd nr.sample
          (rd.get_pixel_surface (get_neighbor_pixel_index rd j cnt
            rd.render_settings.restir_di_settings.spatial_pass.spatial_reuse_radius
            coords res rot)) :=
        targetFn_nonneg _ rd _ _ hb hm he
      have hM1 : (0 : ℚ) ≤
          ((rd.render_settings.restir_di_settings.spatial_pass.input_reservoirs
            (get_neighbor_pixel_index rd j cnt
              rd.render_settings.restir_di_settings.spatial_pass.spatial_reuse_radius
              coords res rot)).M : ℚ) := Nat.cast_nonneg _
      have hM2 : (0 : ℚ) ≤ ((1 : ℕ) : ℚ) := Nat.cast_nonneg _
      have hp1 := mul_nonneg htf hM1
      have hp2 := mul_nonneg htf hM2
      dsimp only
      constructor <;> split_ifs <;>
        first
          | exact h1
          | exact hp1
          | exact hp2
          | linarith
  have inv : ∀ (l : List ℕ) (nd : ℚ × ℚ), 0 ≤ nd.1 → nd.1 ≤ nd.2 →
      0 ≤ (l.foldl (gbh_step rd nr cur cnt coords res rot) nd).1 ∧
      (l.foldl (gbh_step rd nr cur cnt coords res rot) nd).1 ≤
        (l.foldl (gbh_step rd nr cur cnt coords res rot) nd).2 := by
    intro l
    induction l with
    | nil => intro nd h1 h2; exact ⟨h1, h2⟩
    | cons j t ih =>
      intro nd h1 h2
      simp only [List.foldl_cons]
      exact ih _ (hstep nd j h1 h2).1 (hstep nd j h1 h2).2
  have hmain := inv (List.range (cnt + 1)) (0, 0) (le_refl 0) (le_refl 0)
  have hnd : 0 ≤ (gbh_nume_denom rd nr cur cnt coords res rot).1 ∧
      (gbh_nume_denom rd nr cur cnt coords res rot).1 ≤
        (gbh_nume_denom rd nr cur cnt coords res rot).2 := by
    unfold gbh_nume_denom
    exact hmain
  refine ⟨?_, hnd.1, hnd.2, ?_, ?_⟩
  · intro hmode
    rcases hmode with h | h <;>
      simp only [get_spatial_reuse_resampling_MIS_weight, h]
  · split_ifs with hz
    · norm_num
    · have hpos : 0 < (gbh_nume_denom rd nr cur cnt coords res rot).2 :=
        lt_of_le_of_ne (le_trans hnd.1 hnd.2) (Ne.symm hz)
      exact div_nonneg hnd.1 (le_of_lt hpos)
  · split_ifs with hz
    · norm_num
    · have hpos : 0 < (gbh_nume_denom rd nr cur cnt coords res rot).2 :=
        lt_of_le_of_ne (le_trans hnd.1 hnd.2) (Ne.symm hz)
      exact (div_le_one hpos).mpr hnd.2

/-- C10 witness: applied at the concrete MIS-GBH configuration. -/
theorem gbh_resampling_weight_witness :
    get_spatial_reuse_resampling_MIS_weight exampleRD exampleReservoir 0 1
        ⟨1, 1⟩ ⟨4, 4⟩ ⟨1, 0⟩ =
      (if (gbh_nume_denom exampleRD exampleReservoir 0 1 ⟨1, 1⟩ ⟨4, 4⟩ ⟨1, 0⟩).2 = 0
        then 0
        else (gbh_nume_denom exampleRD exampleReservoir 0 1 ⟨1, 1⟩ ⟨4, 4⟩ ⟨1, 0⟩).1 /
          (gbh_nume_denom exampleRD exampleReservoir 0 1 ⟨1, 1⟩ ⟨4, 4⟩ ⟨1, 0⟩).2) ∧
    0 ≤ (if (gbh_nume_denom exampleRD exampleReservoir 0 1 ⟨1, 1⟩ ⟨4, 4⟩ ⟨1, 0⟩).2 = 0
      then 0
      else (gbh_nume_denom exampleRD exampleReservoir 0 1 ⟨1, 1⟩ ⟨4, 4⟩ ⟨1, 0⟩).1 /
        (gbh_nume_denom exampleRD exampleReservoir 0 1 ⟨1, 1⟩ ⟨4, 4⟩ ⟨1, 0⟩).2) := by
  have hb : ∀ m v vd nrm d, (exampleRD.bsdf_eval m v vd nrm d).Nonneg := by
    intro m v vd nrm d
    norm_num [exampleRD, ColorRGB32F.Nonneg]
  have hm : ∀ i, (exampleRD.materials_buffer i).emission.Nonneg := by
    intro i
    norm_num [exampleRD, ColorRGB32F.Nonneg]
  have he : ∀ v, (exampleRD.envmap_eval v).Nonneg := by
    intro v
    norm_num [exampleRD, ColorRGB32F.Nonneg]
  have h := gbh_resampling_weight_in_unit_interval exampleRD exampleReservoir 0 1
    ⟨1, 1⟩ ⟨4, 4⟩ ⟨1, 0⟩ hb hm he
  exact ⟨h.1 (Or.inl (by decide)), h.2.2.2.1⟩

end RestirDI
